import Mathlib

set_option maxRecDepth 100000

/-!
Verification development for the verifySource crawler core
(`src/crawlers/process_jobs.py`, `src/crawlers/pipelines.py`,
`src/crawlers/extractors/newspaper_extractor.py`, `src/crawlers/crawler.py`,
`src/crawlers/config.py`).

The Python source is shallowly embedded: dictionaries become structures,
MySQL tables become lists of rows, `datetime.utcnow()` becomes an explicit
`now : Nat` parameter, and the external network/extraction library is an
oracle parameter.  Unicode-dependent Python primitives (`str.lower`,
regex classes `\s` and `\w`) are modelled on their ASCII behaviour, which
covers every string the theorems below evaluate.
-/

/-! ## Python primitive models (ASCII fragment) -/

/-- Model of the regex class `\s` (Python whitespace), ASCII range. -/
def pyIsSpace (c : Char) : Bool :=
  c == ' ' || c == '\t' || c == '\n' || c == '\r' || c == '\x0b' || c == '\x0c'

/-- Model of `str.lower` on the ASCII range. -/
def pyLower (c : Char) : Char :=
  if 65 ≤ c.toNat ∧ c.toNat ≤ 90 then Char.ofNat (c.toNat + 32) else c

/-- Model of the regex class `\w` (word character), ASCII range. -/
def pyIsWordChar (c : Char) : Bool := c.isAlphanum || c == '_'

/-- Lower-case a whole string, ASCII model of `str.lower()`. -/
def strLower (s : String) : String := String.mk (s.data.map pyLower)

/-- Python truthiness of an optional string (`None` and `""` are falsy). -/
def truthyOS : Option String → Bool
  | none => false
  | some s => s != ""

/-- Python truthiness of a string (`""` is falsy). -/
def truthyS (s : String) : Bool := s != ""

/-- Python truthiness of an optional integer (`None` and `0` are falsy). -/
def truthyOptNat : Option Nat → Bool
  | none => false
  | some n => n != 0

/-- Substring test: Python `needle in hay` on character lists. -/
def isSubL (needle : List Char) : List Char → Bool
  | [] => needle.isEmpty
  | c :: cs => needle.isPrefixOf (c :: cs) || isSubL needle cs

/-- MySQL `=` on two nullable values: `NULL` compares equal to nothing. -/
def sqlEqO (a b : Option String) : Bool :=
  match a, b with
  | some x, some y => x == y
  | _, _ => false

/-! ## SHA-256 (executable, `Nat`-based with explicit mod 2^32)

Faithful model of Python's `hashlib.sha256(...).hexdigest()` used by
`_generate_content_hash` (newspaper_extractor.py lines 246-255). -/

/-- Truncate to a 32-bit word. -/
def wmask (x : Nat) : Nat := x % 4294967296

/-- Rotate a 32-bit word right by `n`. -/
def rotr (n x : Nat) : Nat := wmask ((x >>> n) ||| (x <<< (32 - n)))

/-- SHA-256 choose function. -/
def shaCh (e f g : Nat) : Nat := (e &&& f) ^^^ ((e ^^^ 4294967295) &&& g)

/-- SHA-256 majority function. -/
def shaMaj (a b c : Nat) : Nat := (a &&& b) ^^^ (a &&& c) ^^^ (b &&& c)

/-- SHA-256 big sigma 0. -/
def bsig0 (x : Nat) : Nat := rotr 2 x ^^^ rotr 13 x ^^^ rotr 22 x

/-- SHA-256 big sigma 1. -/
def bsig1 (x : Nat) : Nat := rotr 6 x ^^^ rotr 11 x ^^^ rotr 25 x

/-- SHA-256 small sigma 0. -/
def ssig0 (x : Nat) : Nat := rotr 7 x ^^^ rotr 18 x ^^^ (x >>> 3)

/-- SHA-256 small sigma 1. -/
def ssig1 (x : Nat) : Nat := rotr 17 x ^^^ rotr 19 x ^^^ (x >>> 10)

/-- The 64 SHA-256 round constants of FIPS 180-4, written in decimal. -/
def shaK : List Nat :=
  [1116352408, 1899447441, 3049323471, 3921009573,
   961987163, 1508970993, 2453635748, 2870763221,
   3624381080, 310598401, 607225278, 1426881987,
   1925078388, 2162078206, 2614888103, 3248222580,
   3835390401, 4022224774, 264347078, 604807628,
   770255983, 1249150122, 1555081692, 1996064986,
   2554220882, 2821834349, 2952996808, 3210313671,
   3336571891, 3584528711, 113926993, 338241895,
   666307205, 773529912, 1294757372, 1396182291,
   1695183700, 1986661051, 2177026350, 2456956037,
   2730485921, 2820302411, 3259730800, 3345764771,
   3516065817, 3600352804, 4094571909, 275423344,
   430227734, 506948616, 659060556, 883997877,
   958139571, 1322822218, 1537002063, 1747873779,
   1955562222, 2024104815, 2227730452, 2361852424,
   2428436474, 2756734187, 3204031479, 3329325298]

/-- The eight SHA-256 initial hash words of FIPS 180-4, written in decimal. -/
def shaH0 : List Nat :=
  [1779033703, 3144134277, 1013904242, 2773480762,
   1359893119, 2600822924, 528734635, 1541459225]

/-- SHA-256 padding of a byte message. -/
def padMessage (msg : List Nat) : List Nat :=
  let len := msg.length
  let zeros := (119 - (len % 64)) % 64
  msg ++ [128] ++ List.replicate zeros 0 ++
    ([56, 48, 40, 32, 24, 16, 8, 0].map (fun s => ((len * 8) >>> s) &&& 255))

/-- Group bytes into big-endian 32-bit words. -/
def toWords : List Nat → List Nat
  | a :: b :: c :: d :: rest =>
      (((a <<< 24) ||| (b <<< 16)) ||| ((c <<< 8) ||| d)) :: toWords rest
  | _ => []

/-- Fuel-driven grouping of a word list into blocks of 16 (structural so the
kernel can evaluate it). -/
def chunk16F : Nat → List Nat → List (List Nat)
  | 0, _ => []
  | _ + 1, [] => []
  | n + 1, x :: rest => (x :: rest.take 15) :: chunk16F n (rest.drop 15)

/-- Group a word list into blocks of 16. -/
def chunk16 (l : List Nat) : List (List Nat) := chunk16F l.length l

/-- Extend a 16-word block to the 64-word message schedule. -/
def extendW (w : List Nat) : Nat → List Nat
  | 0 => w
  | n + 1 =>
      let t := w.length
      extendW (w ++ [wmask (ssig1 (w.getD (t - 2) 0) + w.getD (t - 7) 0 +
        ssig0 (w.getD (t - 15) 0) + w.getD (t - 16) 0)]) n

/-- One SHA-256 compression round on the eight-word state. -/
def shaStep (s : List Nat) (kw : Nat × Nat) : List Nat :=
  match s with
  | [a, b, c, d, e, f, g, h] =>
      let t1 := wmask (h + bsig1 e + shaCh e f g + kw.1 + kw.2)
      let t2 := wmask (bsig0 a + shaMaj a b c)
      [wmask (t1 + t2), a, b, c, wmask (d + t1), e, f, g]
  | other => other

/-- Process one 16-word block. -/
def processBlock (h : List Nat) (block : List Nat) : List Nat :=
  let w := extendW block 48
  let s := (shaK.zip w).foldl shaStep h
  (h.zip s).map (fun p => wmask (p.1 + p.2))

/-- SHA-256 digest of a byte message, as eight 32-bit words. -/
def sha256Words (msg : List Nat) : List Nat :=
  (chunk16 (toWords (padMessage msg))).foldl processBlock shaH0

/-- One lower-case hexadecimal digit. -/
def hexDigit (n : Nat) : Char :=
  if n < 10 then Char.ofNat (48 + n) else Char.ofNat (87 + n)

/-- Eight hex digits of one 32-bit word. -/
def wordHex (w : Nat) : List Char :=
  [28, 24, 20, 16, 12, 8, 4, 0].map (fun s => hexDigit ((w >>> s) &&& 15))

/-- `hashlib.sha256(bytes).hexdigest()`. -/
def sha256Hex (msg : List Nat) : String :=
  String.mk ((sha256Words msg).foldr (fun w acc => wordHex w ++ acc) [])

/-- UTF-8 encoding of one character (Python `str.encode('utf-8')`). -/
def utf8Char (c : Char) : List Nat :=
  let n := c.toNat
  if n < 128 then [n]
  else if n < 2048 then [192 + n / 64, 128 + n % 64]
  else if n < 65536 then [224 + n / 4096, 128 + (n / 64) % 64, 128 + n % 64]
  else [240 + n / 262144, 128 + (n / 4096) % 64, 128 + (n / 64) % 64, 128 + n % 64]

/-- UTF-8 encoding of a character list. -/
def utf8Encode (s : List Char) : List Nat :=
  s.foldr (fun c acc => utf8Char c ++ acc) []

/-! ## Body normalization for hashing
`_generate_content_hash` (newspaper_extractor.py lines 246-255):
`normalized = re.sub(r'\s+', ' ', content.lower().strip())` followed by
`normalized = re.sub(r'[^\w\s]', '', normalized)`, then SHA-256 of the
UTF-8 bytes.  Note the order: whitespace is collapsed BEFORE punctuation
is removed. -/

/-- Python `str.lstrip()` over `\s`-whitespace. -/
def lstripL (l : List Char) : List Char := l.dropWhile (fun c => pyIsSpace c)

/-- Python right strip over `\s`-whitespace. -/
def rstripL : List Char → List Char
  | [] => []
  | c :: cs =>
      match rstripL cs with
      | [] => if pyIsSpace c then [] else [c]
      | r => c :: r

/-- Python `str.strip()`. -/
def stripBoth (l : List Char) : List Char := rstripL (lstripL l)

/-- Model of `re.sub(r'\s+', ' ', s)`: each maximal whitespace run becomes
one space.  The flag records whether the previous character was whitespace. -/
def collapseAux : List Char → Bool → List Char
  | [], _ => []
  | c :: cs, prevSpace =>
      if pyIsSpace c then
        if prevSpace then collapseAux cs true else ' ' :: collapseAux cs true
      else c :: collapseAux cs false

/-- `re.sub(r'\s+', ' ', s)`. -/
def collapseWs (l : List Char) : List Char := collapseAux l false

/-- Model of `re.sub(r'[^\w\s]', '', s)`: keep word characters and whitespace. -/
def removePunct (l : List Char) : List Char :=
  l.filter (fun c => pyIsWordChar c || pyIsSpace c)

/-- The normalized character list hashed by `_generate_content_hash`:
lower-case, strip, collapse whitespace runs, then remove punctuation. -/
def normalizeForHash (s : String) : List Char :=
  removePunct (collapseWs (stripBoth (s.data.map pyLower)))

/-- `NewspaperExtractor._generate_content_hash` (lines 246-255): `None` (or a
falsy empty body) gives `None`, otherwise the SHA-256 hex digest of the
normalized UTF-8 bytes. -/
def generate_content_hash (content : Option String) : Option String :=
  match content with
  | none => none
  | some s => if s = "" then none else some (sha256Hex (utf8Encode (normalizeForHash s)))

/-- Fuel-driven split of a character list into its maximal whitespace-free
words (structural, so concrete instances evaluate in the kernel). -/
def splitWordsF : Nat → List Char → List (List Char)
  | 0, _ => []
  | _ + 1, [] => []
  | n + 1, c :: cs =>
      if pyIsSpace c then splitWordsF n cs
      else (c :: cs.takeWhile (fun x => !pyIsSpace x)) ::
             splitWordsF n (cs.dropWhile (fun x => !pyIsSpace x))

/-- The sequence of whitespace-delimited words of a character list. -/
def splitWords (l : List Char) : List (List Char) := splitWordsF l.length l

/-- Join words with single spaces. -/
def joinWords : List (List Char) → List Char
  | [] => []
  | [w] => w
  | w :: ws => w ++ ' ' :: joinWords ws

/-- Head-is-whitespace test. -/
def headSpace : List Char → Bool
  | [] => false
  | c :: _ => pyIsSpace c

/-! ## URL canonicalization
`NewspaperExtractor._normalize_url` (newspaper_extractor.py lines 103-121).
`urllib.parse.urlparse` is external; the function is modelled on the parsed
components it reads (scheme, netloc, path, query).  The reconstruction on
line 121 uses only those four components. -/

/-- The components of `urlparse` that `_normalize_url` reads. -/
structure ParsedUrl where
  scheme : String
  netloc : String
  path : String
  query : String
deriving DecidableEq, Repr

/-- The fixed tracking-parameter list (line 111). -/
def tracking_params : List String :=
  ["utm_source", "utm_medium", "utm_campaign", "utm_term", "utm_content",
   "fbclid", "gclid"]

/-- Python `s.split(sep)` for a one-character separator (structural). -/
def splitOnCharAux (sep : Char) : List Char → List Char → List (List Char)
  | [], acc => [acc.reverse]
  | c :: cs, acc =>
      if c == sep then acc.reverse :: splitOnCharAux sep cs []
      else splitOnCharAux sep cs (c :: acc)

/-- Python `s.split(sep)` for a one-character separator. -/
def splitOnChar (sep : Char) (l : List Char) : List (List Char) :=
  splitOnCharAux sep l []

/-- `param.split('=')[0]`: the characters before the first `=`. -/
def paramName (pr : List Char) : List Char := pr.takeWhile (fun c => c != '=')

/-- Python `'&'.join(params)`. -/
def joinAmp : List (List Char) → List Char
  | [] => []
  | [x] => x
  | x :: xs => x ++ '&' :: joinAmp xs

/-- The query parameters kept by `_normalize_url` (lines 108-116): split the
query on `&` and drop every parameter whose name is in `tracking_params`,
preserving the order of the rest.  An empty query yields no parameters. -/
def keptParams (q : String) : List (List Char) :=
  if q = "" then []
  else (splitOnChar '&' q.data).filter
    (fun pr => !((tracking_params.map String.data).contains (paramName pr)))

/-- `NewspaperExtractor._normalize_url` (lines 103-121): rebuild
`scheme://netloc path` and append `?` plus the joined kept parameters when
the joined query is nonempty. -/
def normalize_url (p : ParsedUrl) : String :=
  let clean_query := joinAmp (keptParams p.query)
  String.mk (p.scheme.data ++ "://".data ++ p.netloc.data ++ p.path.data ++
    (if clean_query = [] then [] else '?' :: clean_query))

/-- Modelled from the claim's words, for comparison with the source: a
tracking parameter name is anything starting with `utm_`, or `fbclid`, or
`gclid`. -/
def specIsTracking (name : List Char) : Bool :=
  name.take 4 == "utm_".data || name == "fbclid".data || name == "gclid".data

/-- Modelled from the claim's words: the parameters a canonicalizer that
strips all `utm_*` parameters would keep. -/
def specKeptParams (q : String) : List (List Char) :=
  if q = "" then []
  else (splitOnChar '&' q.data).filter (fun pr => !specIsTracking (paramName pr))

/-! ## Data model

`Item` is the extracted-record / pipeline-item dictionary; a missing key is
modelled by the corresponding Python-falsy default (`none`, `""`, `[]`,
`false`).  JSON values stored in `metadata` columns are modelled by `JVal`. -/

/-- A JSON scalar or string-list value stored in a metadata bag. -/
inductive JVal where
  | null
  | str (s : String)
  | nat (n : Nat)
  | bool (b : Bool)
  | arr (xs : List String)
deriving DecidableEq, Repr

/-- A JSON object, in insertion order. -/
abbrev Meta := List (String × JVal)

/-- Lift an optional string into a JSON value (`None` becomes `null`). -/
def jOptStr : Option String → JVal
  | none => JVal.null
  | some s => JVal.str s

/-- Python truthiness of an optional metadata dict (`None` and an empty dict
are falsy). -/
def truthyMeta : Option Meta → Bool
  | none => false
  | some m => !m.isEmpty

/-- The extracted-record / pipeline-item dictionary. -/
structure Item where
  url : String
  title : Option String
  content : String
  excerpt : Option String
  authors : Option String
  published_at : Option String
  top_image : Option String
  images : List String
  videos : List String
  keywords : List String
  summary : Option String
  meta_description : Option String
  meta_keywords : Option String
  canonical_link : Option String
  language : String
  source_url : Option String
  content_hash : Option String
  word_count : Nat
  quality_score : Nat
  quality_factors : List String
  quality_issues : List String
  spider_name : Option String
  scraped_at : Option String
  extraction_method : Option String
  source_id : Option Nat
  crawl_job_id : Option Nat
  found_in_sitemap : Bool
  sitemap_url : Option String
  discovered_at : Option String
deriving DecidableEq, Repr

/-- An item with every key absent (Python-falsy defaults); concrete test
items are built by record update from it. -/
def emptyItem : Item :=
  { url := "", title := none, content := "", excerpt := none, authors := none,
    published_at := none, top_image := none, images := [], videos := [],
    keywords := [], summary := none, meta_description := none,
    meta_keywords := none, canonical_link := none, language := "",
    source_url := none, content_hash := none, word_count := 0,
    quality_score := 0, quality_factors := [], quality_issues := [],
    spider_name := none, scraped_at := none, extraction_method := none,
    source_id := none, crawl_job_id := none, found_in_sitemap := false,
    sitemap_url := none, discovered_at := none }

/-- Crawl-job status values. -/
inductive Status where
  | pending
  | running
  | completed
  | failed
deriving DecidableEq, Repr

/-- One row of the `crawl_jobs` table.  Timestamps are abstract `Nat` ticks. -/
structure JobRow where
  id : Nat
  source_id : Option Nat
  url : String
  status : Status
  priority : Int
  retry_count : Nat
  max_retries : Nat
  error_message : Option String
  metadata : Option Meta
  scheduled_at : Option Nat
  started_at : Option Nat
  completed_at : Option Nat
  created_at : Nat
  updated_at : Nat
deriving DecidableEq, Repr

/-- One row of the `articles` table. -/
structure ArticleRow where
  id : Nat
  source_id : Option Nat
  url : String
  title : Option String
  content : String
  excerpt : Option String
  author : Option String
  published_at : Option String
  crawled_at : Nat
  content_hash : Option String
  language : String
  metadata : Meta
  is_processed : Bool
  is_duplicate : Bool
deriving DecidableEq, Repr

/-- The database: both tables plus MySQL auto-increment counters. -/
structure DB where
  jobs : List JobRow
  articles : List ArticleRow
  nextJobId : Nat
  nextArticleId : Nat
deriving DecidableEq, Repr

/-- DeduplicationPipeline state (pipelines.py lines 27-29): the in-run seen
sets, modelled as lists. -/
structure DedupState where
  seen_hashes : List String
  seen_urls : List String
deriving DecidableEq, Repr

/-! ## Quality scorer and validity gate
(newspaper_extractor.py lines 257-327 and 330-361). -/

/-- `NewspaperExtractor._calculate_quality_metrics` (lines 257-327), projected
to the numeric score; the `quality_factors` / `quality_issues` lists are not
referenced by any claim and are omitted.  Note that the word-count bonus sits
inside the `if data.get('content')` branch. -/
def calculate_quality_score (d : Item) : Nat :=
  let titlePart :=
    if truthyOS d.title = true then
      (if 10 ≤ (d.title.getD "").length ∧ (d.title.getD "").length ≤ 200
       then 20 else 0)
    else 0
  let contentPart :=
    if truthyS d.content = true then
      (if 500 ≤ d.content.length then 25
       else if 200 ≤ d.content.length then 15 else 0) +
      (if 100 ≤ d.word_count then 10 else 0)
    else 0
  let authorsPart := if truthyOS d.authors = true then 15 else 0
  let datePart := if truthyOS d.published_at = true then 10 else 0
  let descPart := if truthyOS d.meta_description = true then 5 else 0
  let kwPart := if d.keywords ≠ [] then 5 else 0
  let imagePart := if truthyOS d.top_image = true then 5 else 0
  let summaryPart := if truthyOS d.summary = true then 5 else 0
  min (titlePart + contentPart + authorsPart + datePart + descPart + kwPart +
       imagePart + summaryPart) 100

/-- Modelled from the claim's words, for comparison with the source: the
score as a sum of fully independent signals (word count contributes on its
own, whether or not a body is present), capped at 100. -/
def specQualityScore (d : Item) : Nat :=
  let titlePart :=
    match d.title with
    | some t => if 10 ≤ t.length ∧ t.length ≤ 200 then 20 else 0
    | none => 0
  let bodyPart :=
    if 500 ≤ d.content.length then 25
    else if 200 ≤ d.content.length then 15 else 0
  let wcPart := if 100 ≤ d.word_count then 10 else 0
  let authorsPart := if truthyOS d.authors = true then 15 else 0
  let datePart := if truthyOS d.published_at = true then 10 else 0
  let descPart := if truthyOS d.meta_description = true then 5 else 0
  let kwPart := if d.keywords ≠ [] then 5 else 0
  let imagePart := if truthyOS d.top_image = true then 5 else 0
  let summaryPart := if truthyOS d.summary = true then 5 else 0
  min (titlePart + bodyPart + wcPart + authorsPart + datePart + descPart +
       kwPart + imagePart + summaryPart) 100

/-- Spam indicator phrases (lines 352-355). -/
def spam_indicators : List String :=
  ["buy now", "click here", "limited time", "act now",
   "free trial", "make money", "work from home"]

/-- `ContentValidator.is_valid_article` (lines 333-361). -/
def is_valid_article (d : Item) : Bool :=
  if truthyOS d.title = false ∨ truthyS d.content = false then false
  else if d.content.length < 100 then false
  else
    let tl := (d.title.getD "").length
    if tl < 10 ∨ tl > 500 then false
    else
      let cl := strLower d.content
      let spam_count :=
        (spam_indicators.filter (fun ind => isSubL ind.data cl.data)).length
      if spam_count ≥ 3 then false else true

/-! ## Job store operations (process_jobs.py lines 60-106, pipelines.py) -/

/-- Apply `f` to every `crawl_jobs` row whose id matches (the effect of an
`UPDATE crawl_jobs SET ... WHERE id = %s`). -/
def updateRow (f : JobRow → JobRow) (db : DB) (job_id : Nat) : DB :=
  { db with jobs := db.jobs.map (fun r => if r.id = job_id then f r else r) }

/-- The row the job with a given id maps to. -/
def findJob (db : DB) (i : Nat) : Option JobRow :=
  db.jobs.find? (fun r => r.id == i)

/-- The per-row effect of `CrawlJobProcessor.update_job_status`
(process_jobs.py lines 75-100): set status; set `started_at` when entering
running; set `completed_at` when entering completed or failed; store the
error message truncated to 1000 characters when one is given; store the
serialized metadata dict when one is given (replacing the column); always
touch `updated_at`. -/
def applyStatusUpdate (status : Status) (err : Option String) (meta : Option Meta)
    (now : Nat) (r : JobRow) : JobRow :=
  { r with
    status := status,
    started_at := if status = Status.running then some now else r.started_at,
    completed_at :=
      if status = Status.completed ∨ status = Status.failed then some now
      else r.completed_at,
    error_message :=
      if truthyOS err = true then some (String.mk ((err.getD "").data.take 1000))
      else r.error_message,
    metadata := if truthyMeta meta = true then meta else r.metadata,
    updated_at := now }

/-- `CrawlJobProcessor.update_job_status` (lines 75-100). -/
def update_job_status (db : DB) (job_id : Nat) (status : Status)
    (err : Option String) (meta : Option Meta) (now : Nat) : DB :=
  updateRow (applyStatusUpdate status err meta now) db job_id

/-- `CrawlJobProcessor.increment_retry_count` (lines 102-106). -/
def increment_retry_count (db : DB) (job_id : Nat) : DB :=
  updateRow (fun r => { r with retry_count := r.retry_count + 1 }) db job_id

/-- The metadata dict built by `CrawlJobProcessor._save_article`
(process_jobs.py lines 174-191). -/
def saveArticleMeta (it : Item) : Meta :=
  [("top_image", jOptStr it.top_image),
   ("images", JVal.arr it.images),
   ("videos", JVal.arr it.videos),
   ("keywords", JVal.arr it.keywords),
   ("summary", jOptStr it.summary),
   ("meta_description", jOptStr it.meta_description),
   ("meta_keywords", jOptStr it.meta_keywords),
   ("canonical_link", jOptStr it.canonical_link),
   ("source_url", jOptStr it.source_url),
   ("word_count", JVal.nat it.word_count),
   ("quality_score", JVal.nat it.quality_score),
   ("quality_factors", JVal.arr it.quality_factors),
   ("quality_issues", JVal.arr it.quality_issues),
   ("spider_name", jOptStr it.spider_name),
   ("scraped_at", jOptStr it.scraped_at),
   ("extraction_method", jOptStr it.extraction_method)]

/-- The `articles` row inserted by `CrawlJobProcessor._save_article`
(lines 209-232).  `published_at` is stored as the item's string (the
`datetime.fromisoformat` parse is external library behaviour); the authors
value is already a joined string on this path. -/
def articleRowOf (aid : Nat) (it : Item) (now : Nat) : ArticleRow :=
  { id := aid, source_id := it.source_id, url := it.url, title := it.title,
    content := it.content, excerpt := it.excerpt, author := it.authors,
    published_at := it.published_at, crawled_at := now,
    content_hash := it.content_hash, language := it.language,
    metadata := saveArticleMeta it, is_processed := false,
    is_duplicate := false }

/-- The duplicate check shared by both save paths:
`SELECT id FROM articles WHERE url = %s OR content_hash = %s`
(process_jobs.py line 166, pipelines.py line 101), with MySQL `NULL`
semantics on `content_hash`. -/
def articleMatch (it : Item) (a : ArticleRow) : Bool :=
  a.url == it.url || sqlEqO a.content_hash it.content_hash

/-- `CrawlJobProcessor._save_article` (process_jobs.py lines 163-238): if a
row with the same URL or content hash exists, return its id without
inserting; otherwise insert one row and return its auto-increment id. -/
def save_article (db : DB) (it : Item) (now : Nat) : DB × Nat :=
  match db.articles.find? (articleMatch it) with
  | some existing => (db, existing.id)
  | none =>
      ({ db with
         articles := db.articles ++ [articleRowOf db.nextArticleId it now],
         nextArticleId := db.nextArticleId + 1 }, db.nextArticleId)

/-- `JSON_SET(metadata, '$.article_id', ...)` on one JSON object: replace the
value of the key if present, else append the pair. -/
def jsonSet (m : Meta) (k : String) (v : JVal) : Meta :=
  match m with
  | [] => [(k, v)]
  | kv :: rest => if kv.1 == k then (k, v) :: rest else kv :: jsonSet rest k v

/-- Look a key up in an optional metadata bag. -/
def lookupMeta (m : Option Meta) (k : String) : Option JVal :=
  ((m.getD []).find? (fun kv => kv.1 == k)).map (fun kv => kv.2)

/-- `DatabasePipeline._update_crawl_job_success` (pipelines.py lines 227-239):
set status completed and `completed_at`, and merge the article id into the
existing metadata with `JSON_SET(COALESCE(metadata, '\x7b\x7d'), ...)`. -/
def update_crawl_job_success (db : DB) (jid : Nat) (aid : Nat) (now : Nat) : DB :=
  updateRow (fun r =>
    { r with
      status := Status.completed,
      completed_at := some now,
      metadata := some (jsonSet (r.metadata.getD []) "article_id" (JVal.nat aid)) })
    db jid

/-- The metadata dict built by `DatabasePipeline._save_article`
(pipelines.py lines 119-135); unlike the processor variant it carries no
`extraction_method` key. -/
def pipelineArticleMeta (it : Item) : Meta :=
  [("top_image", jOptStr it.top_image),
   ("images", JVal.arr it.images),
   ("videos", JVal.arr it.videos),
   ("keywords", JVal.arr it.keywords),
   ("summary", jOptStr it.summary),
   ("meta_description", jOptStr it.meta_description),
   ("meta_keywords", jOptStr it.meta_keywords),
   ("canonical_link", jOptStr it.canonical_link),
   ("source_url", jOptStr it.source_url),
   ("word_count", JVal.nat it.word_count),
   ("quality_score", JVal.nat it.quality_score),
   ("quality_factors", JVal.arr it.quality_factors),
   ("quality_issues", JVal.arr it.quality_issues),
   ("spider_name", jOptStr it.spider_name),
   ("scraped_at", jOptStr it.scraped_at)]

/-- The `articles` row inserted by `DatabasePipeline._save_article`
(pipelines.py lines 148-162). -/
def pipelineArticleRowOf (aid : Nat) (it : Item) (now : Nat) : ArticleRow :=
  { id := aid, source_id := it.source_id, url := it.url, title := it.title,
    content := it.content, excerpt := it.excerpt, author := it.authors,
    published_at := it.published_at, crawled_at := now,
    content_hash := it.content_hash, language := it.language,
    metadata := pipelineArticleMeta it, is_processed := false,
    is_duplicate := false }

/-- `DatabasePipeline._save_article` (pipelines.py lines 93-173): drop the
item when no source id is present; return unchanged when a row with the same
URL or content hash exists; otherwise insert, and when the item carries a
crawl job id mark that job completed via `_update_crawl_job_success`. -/
def pipeline_save_article (db : DB) (it : Item) (now : Nat) : Except String DB :=
  if truthyOptNat it.source_id = false then
    Except.error "No source_id provided for article"
  else
    match db.articles.find? (articleMatch it) with
    | some _ => Except.ok db
    | none =>
        let aid := db.nextArticleId
        let db1 := { db with
          articles := db.articles ++ [pipelineArticleRowOf aid it now],
          nextArticleId := db.nextArticleId + 1 }
        if truthyOptNat it.crawl_job_id = true then
          Except.ok (update_crawl_job_success db1 (it.crawl_job_id.getD 0) aid now)
        else Except.ok db1

/-- The `crawl_jobs` row inserted by `DatabasePipeline._save_discovered_url`
(pipelines.py lines 192-220): status pending, priority -1, retry_count 0,
max_retries 3, discovery metadata, `scheduled_at`/`created_at`/`updated_at`
set to now. -/
def discoveredRow (jid : Nat) (it : Item) (now : Nat) : JobRow :=
  { id := jid, source_id := it.source_id, url := it.url,
    status := Status.pending, priority := -1, retry_count := 0,
    max_retries := 3, error_message := none,
    metadata := some
      [("discovered_from_sitemap", JVal.bool true),
       ("sitemap_url", jOptStr it.sitemap_url),
       ("discovered_at", jOptStr it.discovered_at)],
    scheduled_at := some now, started_at := none, completed_at := none,
    created_at := now, updated_at := now }

/-- `DatabasePipeline._save_discovered_url` (pipelines.py lines 175-225):
no-op when source id or URL is falsy; no-op when a crawl job for the URL
already exists in status pending or running; otherwise insert one new job. -/
def save_discovered (db : DB) (it : Item) (now : Nat) : DB :=
  if truthyOptNat it.source_id = false ∨ it.url = "" then db
  else if (db.jobs.find? (fun r =>
      r.url == it.url &&
      (r.status == Status.pending || r.status == Status.running))).isSome then db
  else
    { db with
      jobs := db.jobs ++ [discoveredRow db.nextJobId it now],
      nextJobId := db.nextJobId + 1 }

/-- Modelled from the spec: directly-scheduled jobs use the store's default
priority (normal = 0); the enqueue path that sets it lives outside this
repository.  Only the relative fact `-1 < 0` is used. -/
def defaultPriority : Int := 0

/-! ## The Scrapy item pipeline chain
`config.py` lines 35-39 order the pipelines Validation (300) →
Deduplication (400) → Database (500); an exception (`DropItem`) raised by a
stage stops the item there. -/

/-- `ValidationPipeline.process_item` (pipelines.py lines 12-21). -/
def validation_process (it : Item) : Except String Item :=
  if is_valid_article it = true then Except.ok it
  else Except.error "Invalid article content"

/-- `DeduplicationPipeline.process_item` (pipelines.py lines 31-51). -/
def dedup_process (st : DedupState) (it : Item) :
    Except String (DedupState × Item) :=
  if truthyOS it.content_hash = true &&
     st.seen_hashes.contains (it.content_hash.getD "") then
    Except.error "Duplicate content hash"
  else if st.seen_urls.contains it.url then
    Except.error "Duplicate URL"
  else
    Except.ok
      ({ seen_hashes :=
           if truthyOS it.content_hash = true then
             st.seen_hashes ++ [it.content_hash.getD ""]
           else st.seen_hashes,
         seen_urls :=
           if it.url ≠ "" then st.seen_urls ++ [it.url] else st.seen_urls }, it)

/-- `DatabasePipeline.process_item` (pipelines.py lines 78-91): sitemap-
discovered items go to `_save_discovered_url`, everything else to
`_save_article`. -/
def database_process (db : DB) (it : Item) (now : Nat) : Except String DB :=
  if it.found_in_sitemap = true then Except.ok (save_discovered db it now)
  else pipeline_save_article db it now

/-- One item through the wired pipeline chain (Validation → Deduplication →
Database).  A stage that raises `DropItem` stops the item; state already
mutated by earlier stages stays mutated. -/
def runItemPipelines (st : DedupState) (db : DB) (it : Item) (now : Nat) :
    DedupState × DB × Option Item :=
  match validation_process it with
  | Except.error _ => (st, db, none)
  | Except.ok it1 =>
      match dedup_process st it1 with
      | Except.error _ => (st, db, none)
      | Except.ok (st1, it2) =>
          match database_process db it2 now with
          | Except.error _ => (st1, db, none)
          | Except.ok db1 => (st1, db1, some it2)

/-! ## The job processor (process_jobs.py lines 108-161, crawler.py) -/

/-- The item dictionary yielded by `SitemapSpider.parse` for one discovered
URL (base_spider.py lines 259-267): exactly the five keys url, source_id,
found_in_sitemap, sitemap_url, discovered_at. -/
def sitemapItem (u : String) (sid : Option Nat) (smUrl : String) (now : Nat) : Item :=
  { emptyItem with
    url := u, source_id := sid, found_in_sitemap := true,
    sitemap_url := some smUrl, discovered_at := some (toString now) }

/-- The database effect of `VerifySourceCrawler.crawl_sitemap`
(crawler.py lines 105-122): run the sitemap spider's discovered items
through the wired item pipeline chain, with a fresh in-run dedup state. -/
def crawl_sitemap_effect (db : DB) (smUrl : String) (sid : Option Nat)
    (urls : List String) (now : Nat) : DB :=
  (urls.foldl
    (fun acc u =>
      let res := runItemPipelines acc.1 acc.2 (sitemapItem u sid smUrl now) now
      (res.1, res.2.1))
    (DedupState.mk [] [], db)).2

/-- The check on process_jobs.py line 121: `'sitemap' in url.lower()`. -/
def sitemapCheck (url : String) : Bool :=
  isSubL "sitemap".data (url.data.map pyLower)

/-- The enrichment `VerifySourceCrawler.crawl_url` applies to a successful
extraction (crawler.py lines 52-58). -/
def crawl_url_enrich (it : Item) (sid : Option Nat) (jid : Nat) (now : Nat) : Item :=
  { it with source_id := sid, crawl_job_id := some jid,
            scraped_at := some (toString now),
            extraction_method := some "newspaper3k" }

/-- The enrichment `SinglePageSpider.parse` applies to a record extracted
from the fallback response (base_spider.py lines 60-66): the job's source
id and crawl job id from the request meta, a timestamp and the spider
name. -/
def single_page_item (it : Item) (sid : Option Nat) (jid : Nat) (now : Nat) : Item :=
  { it with source_id := sid, crawl_job_id := some jid,
            scraped_at := some (toString now),
            spider_name := some "single_page_spider" }

/-- The database effect of `crawl_url`'s Scrapy fallback (crawler.py lines
63-76): when newspaper extraction returns `None`, the URL is crawled again
with `SinglePageSpider`, whose single parsed record (`none` when the fetch
or `_process_article` yields nothing) runs through the wired pipeline chain
with a fresh in-run dedup state — this path can insert an `articles` row
and touch the crawl job via `_update_crawl_job_success`. -/
def crawl_url_fallback_effect (db : DB) (job : JobRow) (fb : Option Item)
    (now : Nat) : DB :=
  match fb with
  | none => db
  | some it =>
      (runItemPipelines (DedupState.mk [] []) db
        (single_page_item it job.source_id job.id now) now).2.1

/-- The outcome of one job's processing attempt, abstracting the external
network and extraction library:
`ok extraction saveFailed` is a run of the `try` body where `crawl_url`
returned `extraction` (`none` whenever the extractor raised, timed out or
found nothing — newspaper_extractor.py lines 27-44 catch every exception and
return `None`; in that case `crawl_url` first runs the Scrapy fallback,
whose parsed record is the separate `fb` argument of `process_job`) and
`saveFailed` says whether `_save_article` raised (that exception is caught
and swallowed on lines 136-140);
`raise msg` is an exception escaping the `try` body (for example from a
store operation), modelled as occurring after the running transition. -/
inductive ProcOutcome where
  | ok (extraction : Option Item) (saveFailed : Bool)
  | raise (msg : String)

/-- The `result_metadata` dict of the single-URL branch
(process_jobs.py lines 127-132). -/
def metaForResult (r : Option Item) : Meta :=
  [("crawl_type", JVal.str "single_url"),
   ("extraction_successful", JVal.bool r.isSome),
   ("title", match r with | some it => jOptStr it.title | none => JVal.null),
   ("content_length",
      JVal.nat (match r with | some it => it.content.length | none => 0))]

/-- `CrawlJobProcessor.process_job` (process_jobs.py lines 108-161).
`smUrls` is the sitemap spider's discovered-URL list and `fb` the fallback
spider's parsed record (crawler.py lines 63-76), both external oracles. -/
def process_job (db : DB) (job : JobRow) (outcome : ProcOutcome)
    (smUrls : List String) (fb : Option Item) (now : Nat) : DB :=
  let db1 := update_job_status db job.id Status.running none none now
  match outcome with
  | ProcOutcome.raise msg =>
      let db2 := increment_retry_count db1 job.id
      if job.retry_count + 1 < job.max_retries then
        update_job_status db2 job.id Status.pending (some msg) none now
      else
        update_job_status db2 job.id Status.failed (some msg) none now
  | ProcOutcome.ok extraction saveFailed =>
      if sitemapCheck job.url = true then
        let db2 := crawl_sitemap_effect db1 job.url job.source_id smUrls now
        update_job_status db2 job.id Status.completed none
          (some [("crawl_type", JVal.str "sitemap")]) now
      else
        match extraction with
        | none =>
            let db2 := crawl_url_fallback_effect db1 job fb now
            update_job_status db2 job.id Status.completed none
              (some (metaForResult none)) now
        | some it0 =>
            let it := crawl_url_enrich it0 job.source_id job.id now
            if saveFailed = true then
              update_job_status db1 job.id Status.completed none
                (some (metaForResult (some it))) now
            else
              let res := save_article db1 it now
              update_job_status res.1 job.id Status.completed none
                (some (metaForResult (some it) ++
                       [("article_id", JVal.nat res.2)])) now

/-! ## Concrete fixtures used by witnesses and counterexamples -/

/-- A pending job row with the given id, url, retry count and cap. -/
def mkJob (i : Nat) (u : String) (rc mx : Nat) : JobRow :=
  { id := i, source_id := some 1, url := u, status := Status.pending,
    priority := 0, retry_count := rc, max_retries := mx, error_message := none,
    metadata := none, scheduled_at := none, started_at := none,
    completed_at := none, created_at := 0, updated_at := 0 }

/-- A one-job database around a given job row. -/
def mkDB (j : JobRow) : DB :=
  { jobs := [j], articles := [], nextJobId := j.id + 1, nextArticleId := 1 }

/-- A concrete article record used by witnesses. -/
def artItem : Item :=
  { emptyItem with
    url := "http://e/a", content := "body",
    content_hash := some "h9", source_id := some 1 }

/-- A record whose raw body is 50 characters with a fine title: it fails the
validity gate on body length (the spec's own example). -/
def shortBodyItem : Item :=
  { emptyItem with
    url := "http://e/short", title := some "A perfectly fine title",
    content := String.mk (List.replicate 50 'x') }

/-- A record with a 120-character body but a 7-character title: it fails the
validity gate on title length, yet carries persistable content. -/
def badTitleItem : Item :=
  { emptyItem with
    url := "http://news.example/story1", title := some "Urgent!",
    content := String.mk (List.replicate 120 'x'), content_hash := some "h1" }

/-- The spec scenario record: title length 12, body length 600, word count
120, an author present, nothing else. -/
def scenarioItem : Item :=
  { emptyItem with
    title := some "Market Watch", content := String.mk (List.replicate 600 'x'),
    word_count := 120, authors := some "Jane Doe" }

/-- A record with no body but word count 120 (reachable: boilerplate
stripping can empty a body whose raw text was long). -/
def noBodyItem : Item := { emptyItem with word_count := 120 }

/-- A discovered-URL item as `insertDiscovered` receives it. -/
def discItem (u : String) : Item :=
  { emptyItem with
    url := u, source_id := some 1, found_in_sitemap := true,
    sitemap_url := some "http://e/sitemap.xml" }

/-- A jobs table holding pending jobs for two of the five scenario URLs. -/
def dbTwoPending : DB :=
  { jobs := [mkJob 1 "http://e/u2" 0 3, mkJob 2 "http://e/u4" 0 3],
    articles := [], nextJobId := 3, nextArticleId := 1 }

/-- A database whose single job carries stored metadata under key `a`. -/
def dbWithMeta : DB :=
  mkDB { mkJob 1 "http://e/a" 0 3 with metadata := some [("a", JVal.str "1")] }

/-! ## General lemmas about the store operations -/

/-- Finding a row by id commutes with an id-preserving per-row update. -/
theorem findJob_updateRow (f : JobRow → JobRow) (db : DB) (i : Nat)
    (hf : ∀ r, (f r).id = r.id) :
    findJob (updateRow f db i) i = (findJob db i).map f := by
  unfold findJob updateRow
  induction db.jobs with
  | nil => rfl
  | cons r rs ih =>
      by_cases h : r.id = i
      · simp [List.find?_cons, h, hf]
      · have hb : (r.id == i) = false := by simp [h]
        simp [List.find?_cons, h, hb, ih]

/-- `update_job_status` specialization of `findJob_updateRow`. -/
theorem findJob_update_job_status (db : DB) (i : Nat) (st : Status)
    (err : Option String) (meta : Option Meta) (now : Nat) :
    findJob (update_job_status db i st err meta now) i
      = (findJob db i).map (applyStatusUpdate st err meta now) :=
  findJob_updateRow _ db i (fun _ => rfl)

/-- `increment_retry_count` specialization of `findJob_updateRow`. -/
theorem findJob_increment (db : DB) (i : Nat) :
    findJob (increment_retry_count db i) i
      = (findJob db i).map (fun r => { r with retry_count := r.retry_count + 1 }) :=
  findJob_updateRow _ db i (fun _ => rfl)

/-- `update_crawl_job_success` specialization of `findJob_updateRow`. -/
theorem findJob_update_success (db : DB) (jid aid now : Nat) :
    findJob (update_crawl_job_success db jid aid now) jid
      = (findJob db jid).map (fun r =>
          { r with status := Status.completed, completed_at := some now,
                   metadata := some (jsonSet (r.metadata.getD []) "article_id"
                                       (JVal.nat aid)) }) :=
  findJob_updateRow _ db jid (fun _ => rfl)

/-- Per-row updates leave the `articles` table unchanged. -/
theorem articles_updateRow (f : JobRow → JobRow) (db : DB) (i : Nat) :
    (updateRow f db i).articles = db.articles := rfl

/-- `_save_article` leaves the `crawl_jobs` table unchanged. -/
theorem save_article_jobs (db : DB) (it : Item) (now : Nat) :
    ((save_article db it now).1).jobs = db.jobs := by
  unfold save_article
  cases db.articles.find? (articleMatch it) <;> rfl

/-- A fold whose step never changes the accumulator is the identity. -/
theorem foldl_fixed {α β : Type} (f : α → β → α) (h : ∀ a b, f a b = a) :
    ∀ (l : List β) (a : α), l.foldl f a = a := by
  intro l
  induction l with
  | nil => intro a; rfl
  | cons x xs ih => intro a; rw [List.foldl_cons, h, ih]

/-- A sitemap-discovered item carries no title, so the validity gate of
`ValidationPipeline` rejects it. -/
theorem sitemapItem_invalid (u : String) (sid : Option Nat) (smUrl : String)
    (now : Nat) : is_valid_article (sitemapItem u sid smUrl now) = false := by
  simp [is_valid_article, sitemapItem, emptyItem, truthyOS]

/-- The wired pipeline chain drops every sitemap-discovered item at the
validation stage, leaving dedup state and database unchanged. -/
theorem runItemPipelines_sitemapItem (st : DedupState) (db : DB) (u : String)
    (sid : Option Nat) (smUrl : String) (now : Nat) :
    runItemPipelines st db (sitemapItem u sid smUrl now) now = (st, db, none) := by
  simp [runItemPipelines, validation_process, sitemapItem_invalid]

/-- Through the wired pipeline chain, a sitemap crawl inserts nothing at
all: every discovered item is dropped by `ValidationPipeline` before
`DatabasePipeline._save_discovered_url` can run. -/
theorem crawl_sitemap_effect_eq (db : DB) (smUrl : String) (sid : Option Nat)
    (urls : List String) (now : Nat) :
    crawl_sitemap_effect db smUrl sid urls now = db := by
  unfold crawl_sitemap_effect
  rw [foldl_fixed]
  intro a u
  rw [runItemPipelines_sitemapItem]

/-- Finding any row by id across a per-row update of a possibly different
id: the found row is transformed exactly when it carries the updated id. -/
theorem findJob_updateRow_any (g : JobRow → JobRow) (db : DB) (j i : Nat)
    (hg : ∀ r, (g r).id = r.id) :
    findJob (updateRow g db j) i
      = (findJob db i).map (fun r => if r.id = j then g r else r) := by
  unfold findJob updateRow
  induction db.jobs with
  | nil => rfl
  | cons r rs ih =>
      by_cases hj : r.id = j
      · subst hj
        by_cases hi : r.id = i
        · subst hi
          simp [List.find?_cons, hg]
        · have hb : (r.id == i) = false := by simp [hi]
          have hb2 : ((g r).id == i) = false := by simp [hg, hi]
          simp [List.find?_cons, hb, hb2, ih]
      · by_cases hi : r.id = i
        · subst hi
          simp [List.find?_cons, hj]
        · have hb : (r.id == i) = false := by simp [hi]
          simp [List.find?_cons, hb, hj, ih]

/-- `_save_discovered_url` only ever appends a job row, so any row found
before is found unchanged after. -/
theorem findJob_save_discovered (db : DB) (it : Item) (now i : Nat)
    (r : JobRow) (h : findJob db i = some r) :
    findJob (save_discovered db it now) i = some r := by
  unfold save_discovered
  by_cases h1 : truthyOptNat it.source_id = false ∨ it.url = ""
  · rw [if_pos h1]; exact h
  · rw [if_neg h1]
    by_cases h2 : (db.jobs.find? (fun r =>
        r.url == it.url &&
        (r.status == Status.pending || r.status == Status.running))).isSome = true
    · rw [if_pos h2]; exact h
    · rw [if_neg h2]
      show List.find? (fun r => r.id == i)
          (db.jobs ++ [discoveredRow db.nextJobId it now]) = some r
      rw [List.find?_append]
      unfold findJob at h
      rw [h]
      rfl

/-- `DatabasePipeline._save_article` never removes a job row and never
touches a retry count: it only inserts an article and possibly applies the
success update to the item's crawl job. -/
theorem findJob_pipeline_save (db : DB) (it : Item) (now i : Nat) (r : JobRow)
    (db1 : DB) (h : findJob db i = some r)
    (hdb : pipeline_save_article db it now = Except.ok db1) :
    ∃ r', findJob db1 i = some r' ∧ r'.retry_count = r.retry_count := by
  unfold pipeline_save_article at hdb
  by_cases hsrc : truthyOptNat it.source_id = false
  · rw [if_pos hsrc] at hdb
    exact absurd hdb (by simp)
  · rw [if_neg hsrc] at hdb
    cases hfa : db.articles.find? (articleMatch it) with
    | some ex =>
        rw [hfa] at hdb
        obtain rfl := Except.ok.inj hdb
        exact ⟨r, h, rfl⟩
    | none =>
        rw [hfa] at hdb
        by_cases hcj : truthyOptNat it.crawl_job_id = true
        · rw [if_pos hcj] at hdb
          obtain rfl := Except.ok.inj hdb
          have hq : findJob (update_crawl_job_success
              { db with
                articles := db.articles ++
                  [pipelineArticleRowOf db.nextArticleId it now],
                nextArticleId := db.nextArticleId + 1 }
              (it.crawl_job_id.getD 0) db.nextArticleId now) i
            = (findJob db i).map (fun rr =>
                if rr.id = it.crawl_job_id.getD 0 then
                  { rr with
                    status := Status.completed, completed_at := some now,
                    metadata := some (jsonSet (rr.metadata.getD []) "article_id"
                      (JVal.nat db.nextArticleId)) }
                else rr) := by
            unfold update_crawl_job_success
            exact findJob_updateRow_any _ _ _ _ (fun _ => rfl)
          rw [h, Option.map_some'] at hq
          refine ⟨_, hq, ?_⟩
          by_cases hid : r.id = it.crawl_job_id.getD 0 <;> simp [hid]
        · rw [if_neg hcj] at hdb
          obtain rfl := Except.ok.inj hdb
          exact ⟨r, h, rfl⟩

/-- `DatabasePipeline.process_item` preserves every job row's existence and
retry count. -/
theorem findJob_database_process (db : DB) (it : Item) (now i : Nat)
    (r : JobRow) (db1 : DB) (h : findJob db i = some r)
    (hdb : database_process db it now = Except.ok db1) :
    ∃ r', findJob db1 i = some r' ∧ r'.retry_count = r.retry_count := by
  unfold database_process at hdb
  by_cases hfs : it.found_in_sitemap = true
  · rw [if_pos hfs] at hdb
    obtain rfl := Except.ok.inj hdb
    exact ⟨r, findJob_save_discovered db it now i r h, rfl⟩
  · rw [if_neg hfs] at hdb
    exact findJob_pipeline_save db it now i r db1 h hdb

/-- One trip through the wired pipeline chain preserves every job row's
existence and retry count. -/
theorem findJob_runItemPipelines (st : DedupState) (db : DB) (it : Item)
    (now i : Nat) (r : JobRow) (h : findJob db i = some r) :
    ∃ r', findJob (runItemPipelines st db it now).2.1 i = some r'
      ∧ r'.retry_count = r.retry_count := by
  unfold runItemPipelines
  split
  · exact ⟨r, h, rfl⟩
  · split
    · exact ⟨r, h, rfl⟩
    · split
      · exact ⟨r, h, rfl⟩
      · exact findJob_database_process db _ now i r _ h (by assumption)

/-- The Scrapy fallback of `crawl_url` preserves every job row's existence
and retry count. -/
theorem findJob_fallback (db : DB) (job : JobRow) (fb : Option Item)
    (now i : Nat) (r : JobRow) (h : findJob db i = some r) :
    ∃ r', findJob (crawl_url_fallback_effect db job fb now) i = some r'
      ∧ r'.retry_count = r.retry_count := by
  cases fb with
  | none => exact ⟨r, h, rfl⟩
  | some it =>
      exact findJob_runItemPipelines (DedupState.mk [] []) db
        (single_page_item it job.source_id job.id now) now i r h

/-! ## C1 — retry decision on a processing failure -/

/-- C1: when an exception escapes a claimed job's processing, the processor
increments the stored retry count by exactly one and decides with the
retry count read at claim time: strictly below `max_retries` after adding
one means back to pending, otherwise failed; in particular a job claimed
with `retry_count + 1 = max_retries` is transitioned to failed. -/
theorem c1_retry_decision (db : DB) (job r : JobRow) (msg : String)
    (smUrls : List String) (fb : Option Item) (now : Nat)
    (hfind : findJob db job.id = some r)
    (hsync : r.retry_count = job.retry_count) :
    (findJob (process_job db job (ProcOutcome.raise msg) smUrls fb now) job.id).map
        JobRow.retry_count = some (job.retry_count + 1)
    ∧ (job.retry_count + 1 < job.max_retries →
        (findJob (process_job db job (ProcOutcome.raise msg) smUrls fb now) job.id).map
          JobRow.status = some Status.pending)
    ∧ (¬ job.retry_count + 1 < job.max_retries →
        (findJob (process_job db job (ProcOutcome.raise msg) smUrls fb now) job.id).map
          JobRow.status = some Status.failed)
    ∧ (job.retry_count + 1 = job.max_retries →
        (findJob (process_job db job (ProcOutcome.raise msg) smUrls fb now) job.id).map
          JobRow.status = some Status.failed) := by
  have hmain : ∀ st : Status,
      findJob (update_job_status (increment_retry_count
          (update_job_status db job.id Status.running none none now) job.id)
          job.id st (some msg) none now) job.id
        = some (applyStatusUpdate st (some msg) none now
            { applyStatusUpdate Status.running none none now r with
              retry_count :=
                (applyStatusUpdate Status.running none none now r).retry_count + 1 }) := by
    intro st
    rw [findJob_update_job_status, findJob_increment, findJob_update_job_status,
        hfind]
    rfl
  by_cases hlt : job.retry_count + 1 < job.max_retries
  · refine ⟨?_, fun _ => ?_, fun hc => absurd hlt hc, fun he => ?_⟩
    · simp only [process_job, hlt, if_pos, hmain Status.pending]
      simp [applyStatusUpdate, hsync]
    · simp only [process_job, hlt, if_pos, hmain Status.pending]
      simp [applyStatusUpdate]
    · omega
  · refine ⟨?_, fun hc => absurd hc hlt, fun _ => ?_, fun _ => ?_⟩
    all_goals simp only [process_job, hlt, if_neg, if_false, hmain Status.failed]
    · simp [applyStatusUpdate, hsync]
    · simp [applyStatusUpdate]
    · simp [applyStatusUpdate]

/-- Witness for C1 at a concrete input: a job claimed with retry count 2 of
max 3 whose processing raises is transitioned to failed with retry count 3. -/
theorem c1_retry_decision_witness :
    findJob (mkDB (mkJob 1 "http://news.example/a" 2 3)) 1
        = some (mkJob 1 "http://news.example/a" 2 3)
    ∧ (findJob (process_job (mkDB (mkJob 1 "http://news.example/a" 2 3))
          (mkJob 1 "http://news.example/a" 2 3) (ProcOutcome.raise "boom") [] none 5) 1).map
        JobRow.retry_count = some 3
    ∧ (findJob (process_job (mkDB (mkJob 1 "http://news.example/a" 2 3))
          (mkJob 1 "http://news.example/a" 2 3) (ProcOutcome.raise "boom") [] none 5) 1).map
        JobRow.status = some Status.failed := by
  refine ⟨by decide, ?_, ?_⟩
  · exact (c1_retry_decision (mkDB (mkJob 1 "http://news.example/a" 2 3))
      (mkJob 1 "http://news.example/a" 2 3) (mkJob 1 "http://news.example/a" 2 3)
      "boom" [] none 5 (by decide) (by decide)).1
  · exact (c1_retry_decision (mkDB (mkJob 1 "http://news.example/a" 2 3))
      (mkJob 1 "http://news.example/a" 2 3) (mkJob 1 "http://news.example/a" 2 3)
      "boom" [] none 5 (by decide) (by decide)).2.2.2 (by decide)

/-! ## C2 — which failures actually reach the retry path -/

/-- C2 (amended): only an exception that escapes the `try` body of
`process_job` triggers `incrementRetry` followed by the pending/failed
decision.  An extraction failure — the Extractor raising, timing out, or
returning nothing, all of which surface as a `None` result from
`crawl_url` — is swallowed: whatever `crawl_url`'s Scrapy fallback does
(it may itself persist an article through the wired pipelines), the job is
transitioned to completed with metadata recording
`extraction_successful = false` and its retry count unchanged; when the
fallback parses nothing, no article row is written either.  A persistence
error inside `_save_article` is likewise swallowed: the job completes
without an `article_id` key, with retry count unchanged and no article
row. -/
theorem c2_failure_handling (db : DB) (job r : JobRow) (it : Item)
    (fb : Option Item) (smUrls : List String) (msg : String) (now : Nat)
    (hfind : findJob db job.id = some r)
    (hns : sitemapCheck job.url = false) :
    ((findJob (process_job db job (ProcOutcome.ok none false) smUrls fb now)
        job.id).map JobRow.status = some Status.completed
     ∧ (findJob (process_job db job (ProcOutcome.ok none false) smUrls fb now)
        job.id).map JobRow.retry_count = some r.retry_count
     ∧ (findJob (process_job db job (ProcOutcome.ok none false) smUrls fb now)
        job.id).map JobRow.metadata = some (some (metaForResult none))
     ∧ (process_job db job (ProcOutcome.ok none false) smUrls none now).articles
        = db.articles)
    ∧ ((findJob (process_job db job (ProcOutcome.ok (some it) true) smUrls fb now)
        job.id).map JobRow.status = some Status.completed
     ∧ (findJob (process_job db job (ProcOutcome.ok (some it) true) smUrls fb now)
        job.id).map JobRow.retry_count = some r.retry_count
     ∧ (findJob (process_job db job (ProcOutcome.ok (some it) true) smUrls fb now)
        job.id).map (fun j => lookupMeta j.metadata "article_id") = some none
     ∧ (process_job db job (ProcOutcome.ok (some it) true) smUrls fb now).articles
        = db.articles)
    ∧ ((findJob (process_job db job (ProcOutcome.raise msg) smUrls fb now)
        job.id).map JobRow.retry_count = some (r.retry_count + 1)
     ∧ (findJob (process_job db job (ProcOutcome.raise msg) smUrls fb now)
        job.id).map JobRow.status
          = some (if job.retry_count + 1 < job.max_retries
                  then Status.pending else Status.failed)) := by
  have h1 : findJob (update_job_status db job.id Status.running none none now)
      job.id = some (applyStatusUpdate Status.running none none now r) := by
    rw [findJob_update_job_status, hfind]
    rfl
  obtain ⟨r', hr', hrc⟩ := findJob_fallback
    (update_job_status db job.id Status.running none none now) job fb now job.id
    (applyStatusUpdate Status.running none none now r) h1
  refine ⟨⟨?_, ?_, ?_, ?_⟩, ⟨?_, ?_, ?_, ?_⟩, ?_, ?_⟩
  · simp only [process_job, hns, Bool.false_eq_true, if_neg, if_false]
    rw [findJob_update_job_status, hr']
    rfl
  · simp only [process_job, hns, Bool.false_eq_true, if_neg, if_false]
    rw [findJob_update_job_status, hr']
    simp [applyStatusUpdate, hrc]
  · simp only [process_job, hns, Bool.false_eq_true, if_neg, if_false]
    rw [findJob_update_job_status, hr']
    rfl
  · simp [process_job, hns, crawl_url_fallback_effect, update_job_status,
      articles_updateRow]
  · simp only [process_job, hns, Bool.false_eq_true, if_neg, if_false,
      if_pos, findJob_update_job_status, hfind]
    rfl
  · simp only [process_job, hns, Bool.false_eq_true, if_neg, if_false,
      if_pos, findJob_update_job_status, hfind]
    rfl
  · simp only [process_job, hns, Bool.false_eq_true, if_neg, if_false,
      if_pos, findJob_update_job_status, hfind]
    simp [applyStatusUpdate, truthyMeta, lookupMeta, metaForResult, List.find?]
  · simp [process_job, hns, update_job_status, articles_updateRow]
  · rw [show process_job db job (ProcOutcome.raise msg) smUrls fb now
        = update_job_status (increment_retry_count
            (update_job_status db job.id Status.running none none now) job.id)
            job.id (if job.retry_count + 1 < job.max_retries then Status.pending
                    else Status.failed) (some msg) none now from ?_]
    · rw [findJob_update_job_status, findJob_increment, findJob_update_job_status,
          hfind]
      rfl
    · simp only [process_job]
      by_cases hlt : job.retry_count + 1 < job.max_retries <;> simp [hlt]
  · rw [show process_job db job (ProcOutcome.raise msg) smUrls fb now
        = update_job_status (increment_retry_count
            (update_job_status db job.id Status.running none none now) job.id)
            job.id (if job.retry_count + 1 < job.max_retries then Status.pending
                    else Status.failed) (some msg) none now from ?_]
    · rw [findJob_update_job_status, findJob_increment, findJob_update_job_status,
          hfind]
      by_cases hlt : job.retry_count + 1 < job.max_retries <;>
        simp [hlt, applyStatusUpdate]
    · simp only [process_job]
      by_cases hlt : job.retry_count + 1 < job.max_retries <;> simp [hlt]

/-- Witness for C2 at a concrete input. -/
theorem c2_failure_handling_witness :
    findJob (mkDB (mkJob 1 "http://news.example/a" 0 3)) 1
        = some (mkJob 1 "http://news.example/a" 0 3)
    ∧ sitemapCheck "http://news.example/a" = false
    ∧ (findJob (process_job (mkDB (mkJob 1 "http://news.example/a" 0 3))
          (mkJob 1 "http://news.example/a" 0 3) (ProcOutcome.ok none false)
          [] none 5) 1).map JobRow.status = some Status.completed := by
  refine ⟨by decide, by decide, ?_⟩
  exact ((c2_failure_handling (mkDB (mkJob 1 "http://news.example/a" 0 3))
      (mkJob 1 "http://news.example/a" 0 3) (mkJob 1 "http://news.example/a" 0 3)
      emptyItem none [] "boom" 5 (by decide) (by decide)).1).1

/-- Counterexample to C2 as stated: a claimed job with retry count 0 and max
retries 3 whose extraction fails (the Extractor's exception handlers return
`None`, and here the Scrapy fallback also parses nothing) is transitioned
to completed with retry count still 0 — not, as the claim requires, through
`incrementRetry` to pending with retry count 1. -/
theorem c2_extraction_failure_counterexample :
    (findJob (process_job (mkDB (mkJob 1 "http://news.example/a" 0 3))
        (mkJob 1 "http://news.example/a" 0 3) (ProcOutcome.ok none false)
        [] none 5) 1).map JobRow.status = some Status.completed
    ∧ (findJob (process_job (mkDB (mkJob 1 "http://news.example/a" 0 3))
        (mkJob 1 "http://news.example/a" 0 3) (ProcOutcome.ok none false)
        [] none 5) 1).map JobRow.retry_count = some 0
    ∧ some Status.completed ≠ some Status.pending := by
  refine ⟨by decide, by decide, by decide⟩

/-! ## C3 — idempotent article persistence -/

/-- Searching an extended list starts where the unextended search failed. -/
theorem find?_append_none {α : Type} (p : α → Bool) (l1 l2 : List α)
    (h : l1.find? p = none) : (l1 ++ l2).find? p = l2.find? p := by
  induction l1 with
  | nil => rfl
  | cons x xs ih =>
      rw [List.find?_cons] at h
      rcases hx : p x with _ | _
      · rw [List.cons_append, List.find?_cons, hx]
        exact ih (by rwa [hx] at h)
      · rw [hx] at h; cases h

/-- The row `_save_article` inserts matches its own duplicate check. -/
theorem articleMatch_self (aid : Nat) (it : Item) (now : Nat) :
    articleMatch it (articleRowOf aid it now) = true := by
  simp [articleMatch, articleRowOf]

/-- C3: `_save_article` is an idempotent no-op on duplicates.  First, when
an `articles` row with the same URL or the same content hash already
exists, the call inserts nothing and returns the existing row's id.
Second, calling `_save_article` twice with the same record changes nothing
the second time and returns the identity produced by the first call — the
same URL is never stored in two rows.  Third, the `DatabasePipeline`
variant of the duplicate check likewise inserts nothing when a matching
row exists. -/
theorem c3_save_article_idempotent :
    (∀ (db : DB) (it : Item) (now : Nat) (ex : ArticleRow),
        db.articles.find? (articleMatch it) = some ex →
        save_article db it now = (db, ex.id))
    ∧ (∀ (db : DB) (it : Item) (n1 n2 : Nat),
        save_article (save_article db it n1).1 it n2
          = ((save_article db it n1).1, (save_article db it n1).2))
    ∧ (∀ (db : DB) (it : Item) (now : Nat) (ex : ArticleRow),
        truthyOptNat it.source_id = true →
        db.articles.find? (articleMatch it) = some ex →
        pipeline_save_article db it now = Except.ok db) := by
  refine ⟨?_, ?_, ?_⟩
  · intro db it now ex h
    unfold save_article
    rw [h]
  · intro db it n1 n2
    rcases h : db.articles.find? (articleMatch it) with _ | ex
    · have h1 : save_article db it n1
          = ({ db with
               articles := db.articles ++ [articleRowOf db.nextArticleId it n1],
               nextArticleId := db.nextArticleId + 1 }, db.nextArticleId) := by
        unfold save_article; rw [h]
      rw [h1]
      unfold save_article
      rw [show ({ db with
            articles := db.articles ++ [articleRowOf db.nextArticleId it n1],
            nextArticleId := db.nextArticleId + 1 } : DB).articles
          = db.articles ++ [articleRowOf db.nextArticleId it n1] from rfl,
        find?_append_none _ _ _ h]
      rw [List.find?_cons_of_pos _ (articleMatch_self _ _ _)]
      rfl
    · have h1 : save_article db it n1 = (db, ex.id) := by
        unfold save_article; rw [h]
      rw [h1]
      unfold save_article
      rw [h]
  · intro db it now ex hsrc h
    unfold pipeline_save_article
    rw [hsrc, h]
    rfl

/-- Witness for C3 at a concrete input: saving the same record twice into an
empty database leaves exactly one row and the second call returns the
first id. -/
theorem c3_save_article_idempotent_witness :
    save_article (save_article (mkDB (mkJob 1 "u" 0 3)) artItem 1).1 artItem 2
      = ((save_article (mkDB (mkJob 1 "u" 0 3)) artItem 1).1,
         (save_article (mkDB (mkJob 1 "u" 0 3)) artItem 1).2)
    ∧ ((save_article (mkDB (mkJob 1 "u" 0 3)) artItem 1).1).articles.length = 1 :=
  ⟨c3_save_article_idempotent.2.1 (mkDB (mkJob 1 "u" 0 3)) artItem 1 2, by decide⟩

/-! ## C4 — rejected records and the persistence stages -/

/-- C4 (amended): on the wired Scrapy pipeline path a record that fails the
validity gate is dropped by `ValidationPipeline` and never reaches the
deduplication or database stages — the dedup state and the database are
unchanged and the item is gone.  (The job-processor path applies no
validity gate at all; see the counterexample.) -/
theorem c4_rejected_never_persisted (st : DedupState) (db : DB) (it : Item)
    (now : Nat) (h : is_valid_article it = false) :
    runItemPipelines st db it now = (st, db, none) := by
  simp [runItemPipelines, validation_process, h]

/-- Witness for C4 at the spec's own example: a record with a 50-character
body and a title present fails the gate and leaves the pipeline state
untouched. -/
theorem c4_rejected_never_persisted_witness :
    is_valid_article shortBodyItem = false
    ∧ runItemPipelines (DedupState.mk [] []) (mkDB (mkJob 1 "u" 0 3))
        shortBodyItem 0
        = (DedupState.mk [] [], mkDB (mkJob 1 "u" 0 3), none) :=
  ⟨by decide,
   c4_rejected_never_persisted (DedupState.mk [] []) (mkDB (mkJob 1 "u" 0 3))
     shortBodyItem 0 (by decide)⟩

/-- Counterexample to C4 as stated: on the job-processor path the validity
gate is never consulted.  A record with a 7-character title (invalid under
the gate) extracted for an ordinary URL is persisted into the `articles`
table by `process_job`. -/
theorem c4_gate_bypassed_counterexample :
    is_valid_article badTitleItem = false
    ∧ (process_job (mkDB (mkJob 1 "http://news.example/story1" 0 3))
        (mkJob 1 "http://news.example/story1" 0 3)
        (ProcOutcome.ok (some badTitleItem) false) [] none 3).articles.map
        (fun a => a.url) = ["http://news.example/story1"] := by
  refine ⟨by decide, by decide⟩

/-! ## C5 — insertDiscovered contract and the wired discovery path -/

/-- C5: the `insertDiscovered` contract and where the code breaks it.
Parts one and two show `_save_discovered_url` itself is exactly as claimed:
a URL that already has a pending or running job is silently skipped, and
otherwise exactly one row is appended with status pending, priority -1
(below the default), retry count 0 and max retries 3.  Part three is the
claimed scenario run directly against `_save_discovered_url`: five
discovered URLs of which two already have pending jobs yield exactly three
new rows.  Part four evaluates the code as wired (`config.py` orders
ValidationPipeline before DatabasePipeline): a sitemap crawl's discovered
items are all dropped by validation, so the whole crawl inserts nothing —
the scenario produces zero rows, not three, through the real pipeline. -/
theorem c5_insert_discovered :
    (∀ (db : DB) (it : Item) (now : Nat),
        truthyOptNat it.source_id = true → it.url ≠ "" →
        (db.jobs.find? (fun r =>
            r.url == it.url &&
            (r.status == Status.pending || r.status == Status.running))).isSome →
        save_discovered db it now = db)
    ∧ (∀ (db : DB) (it : Item) (now : Nat),
        truthyOptNat it.source_id = true → it.url ≠ "" →
        db.jobs.find? (fun r =>
            r.url == it.url &&
            (r.status == Status.pending || r.status == Status.running)) = none →
        (save_discovered db it now).jobs
            = db.jobs ++ [discoveredRow db.nextJobId it now]
        ∧ (discoveredRow db.nextJobId it now).status = Status.pending
        ∧ (discoveredRow db.nextJobId it now).priority = -1
        ∧ (discoveredRow db.nextJobId it now).priority < defaultPriority
        ∧ (discoveredRow db.nextJobId it now).retry_count = 0
        ∧ (discoveredRow db.nextJobId it now).max_retries = 3)
    ∧ ((["http://e/u1", "http://e/u2", "http://e/u3", "http://e/u4",
         "http://e/u5"].foldl (fun d u => save_discovered d (discItem u) 0)
          dbTwoPending).jobs.length = dbTwoPending.jobs.length + 3)
    ∧ (∀ (db : DB) (smUrl : String) (sid : Option Nat) (urls : List String)
        (now : Nat), crawl_sitemap_effect db smUrl sid urls now = db) := by
  refine ⟨?_, ?_, by decide, fun db smUrl sid urls now =>
    crawl_sitemap_effect_eq db smUrl sid urls now⟩
  · intro db it now hsrc hurl hex
    unfold save_discovered
    rw [if_neg, if_pos hex]
    simp [hsrc, hurl]
  · intro db it now hsrc hurl hnone
    refine ⟨?_, rfl, rfl, by norm_num [discoveredRow, defaultPriority], rfl, rfl⟩
    unfold save_discovered
    rw [if_neg, if_neg]
    · rw [hnone]; simp
    · simp [hsrc, hurl]

/-- Witness for C5 at concrete inputs: a URL with an existing pending job is
skipped, and a fresh URL inserts one pending row with priority -1, retry
count 0, max retries 3. -/
theorem c5_insert_discovered_witness :
    save_discovered dbTwoPending (discItem "http://e/u2") 0 = dbTwoPending
    ∧ (save_discovered dbTwoPending (discItem "http://e/u1") 0).jobs
        = dbTwoPending.jobs ++ [discoveredRow dbTwoPending.nextJobId
            (discItem "http://e/u1") 0] := by
  refine ⟨c5_insert_discovered.1 dbTwoPending (discItem "http://e/u2") 0
      (by decide) (by decide) (by decide),
    (c5_insert_discovered.2.1 dbTwoPending (discItem "http://e/u1") 0
      (by decide) (by decide) (by decide)).1⟩

/-! ## C6 — content hash lemmas -/

/-- Packing a valid codepoint into a `Char` preserves its numeric value. -/
theorem toNat_ofNat_valid (n : Nat) (h : n.isValidChar) :
    (Char.ofNat n).toNat = n := by
  rw [Char.ofNat, dif_pos h]
  simp [Char.ofNatAux, Char.toNat, UInt32.toNat]

/-- ASCII lower-casing preserves whitespace-ness. -/
theorem pyLower_space (c : Char) : pyIsSpace (pyLower c) = pyIsSpace c := by
  unfold pyLower
  by_cases h : 65 ≤ c.toNat ∧ c.toNat ≤ 90
  · rw [if_pos h]
    have hv : (c.toNat + 32).isValidChar := Or.inl (by omega)
    have ht : (Char.ofNat (c.toNat + 32)).toNat = c.toNat + 32 :=
      toNat_ofNat_valid _ hv
    have h1 : ∀ d : Char, 65 ≤ d.toNat → pyIsSpace d = false := by
      intro d hd
      unfold pyIsSpace
      have hne : ∀ e : Char, e.toNat < 65 → (d == e) = false := by
        intro e he
        rw [beq_eq_false_iff_ne]
        intro hde
        rw [hde] at hd
        omega
      rw [hne ' ' (by decide), hne '\t' (by decide), hne '\n' (by decide),
          hne '\r' (by decide), hne '\x0b' (by decide), hne '\x0c' (by decide)]
      rfl
    rw [h1 _ (by omega), h1 _ (by omega)]
  · rw [if_neg h]

/-- `splitWordsF` is fuel-insensitive once the fuel covers the list. -/
theorem splitWordsF_mono : ∀ (n m : Nat) (l : List Char), l.length ≤ n →
    l.length ≤ m → splitWordsF n l = splitWordsF m l := by
  intro n
  induction n with
  | zero =>
      intro m l hn _
      have : l = [] := List.length_eq_zero.mp (Nat.le_zero.mp hn)
      subst this
      cases m <;> rfl
  | succ k ih =>
      intro m l hn hm
      cases l with
      | nil => cases m <;> rfl
      | cons c cs =>
          cases m with
          | zero => simp at hm
          | succ m' =>
              show splitWordsF (k + 1) (c :: cs) = splitWordsF (m' + 1) (c :: cs)
              unfold splitWordsF
              by_cases hc : pyIsSpace c
              · rw [if_pos hc, if_pos hc]
                exact ih m' cs (by simpa using hn) (by simpa using hm)
              · rw [if_neg hc, if_neg hc]
                have hd : (cs.dropWhile (fun x => !pyIsSpace x)).length ≤ cs.length :=
                  (List.dropWhile_sublist _).length_le
                rw [ih m' (cs.dropWhile (fun x => !pyIsSpace x))
                      (by simp at hn; omega) (by simp at hm; omega)]

/-- Unfolding equation: splitting a whitespace-led list skips the head. -/
theorem splitWords_cons_space (c : Char) (cs : List Char)
    (hc : pyIsSpace c = true) : splitWords (c :: cs) = splitWords cs := by
  show splitWordsF (cs.length + 1) (c :: cs) = splitWordsF cs.length cs
  rw [show splitWordsF (cs.length + 1) (c :: cs)
      = (if pyIsSpace c then splitWordsF cs.length cs
         else (c :: cs.takeWhile (fun x => !pyIsSpace x)) ::
           splitWordsF cs.length (cs.dropWhile (fun x => !pyIsSpace x))) from rfl,
    if_pos hc]

/-- Unfolding equation: splitting a word-led list takes the maximal word. -/
theorem splitWords_cons_nonspace (c : Char) (cs : List Char)
    (hc : pyIsSpace c = false) :
    splitWords (c :: cs)
      = (c :: cs.takeWhile (fun x => !pyIsSpace x)) ::
          splitWords (cs.dropWhile (fun x => !pyIsSpace x)) := by
  show splitWordsF (cs.length + 1) (c :: cs) = _
  rw [show splitWordsF (cs.length + 1) (c :: cs)
      = (if pyIsSpace c then splitWordsF cs.length cs
         else (c :: cs.takeWhile (fun x => !pyIsSpace x)) ::
           splitWordsF cs.length (cs.dropWhile (fun x => !pyIsSpace x))) from rfl,
    if_neg (by simp [hc]),
    splitWordsF_mono cs.length (cs.dropWhile (fun x => !pyIsSpace x)).length
        (cs.dropWhile (fun x => !pyIsSpace x))
        ((List.dropWhile_sublist _).length_le) (Nat.le_refl _)]
  rfl

/-- Right-strip of a word-ending list keeps the head. -/
theorem rstripL_cons_nonspace (c : Char) (cs : List Char)
    (hc : pyIsSpace c = false) : rstripL (c :: cs) = c :: rstripL cs := by
  rw [show rstripL (c :: cs)
      = (match rstripL cs with
         | [] => if pyIsSpace c then [] else [c]
         | r => c :: r) from rfl]
  cases h : rstripL cs with
  | nil => simp [hc]
  | cons x xs => rfl

/-- Right-strip of a whitespace-led list. -/
theorem rstripL_cons_space (c : Char) (cs : List Char)
    (hc : pyIsSpace c = true) :
    rstripL (c :: cs) = if rstripL cs = [] then [] else c :: rstripL cs := by
  rw [show rstripL (c :: cs)
      = (match rstripL cs with
         | [] => if pyIsSpace c then [] else [c]
         | r => c :: r) from rfl]
  cases h : rstripL cs with
  | nil => simp [hc]
  | cons x xs => simp

/-- Right-strip erases the list exactly when it is all whitespace. -/
theorem rstripL_eq_nil_iff (l : List Char) :
    rstripL l = [] ↔ ∀ c ∈ l, pyIsSpace c = true := by
  induction l with
  | nil => simp [rstripL]
  | cons c cs ih =>
      by_cases hc : pyIsSpace c
      · rw [rstripL_cons_space c cs hc]
        by_cases h0 : rstripL cs = []
        · rw [if_pos h0]
          constructor
          · intro _ x hx
            rcases List.mem_cons.mp hx with h1 | h1
            · rwa [h1]
            · exact ih.mp h0 x h1
          · intro _; rfl
        · rw [if_neg h0]
          constructor
          · intro h
            exact absurd h (List.cons_ne_nil _ _)
          · intro h
            exact absurd (ih.mpr (fun x hx => h x (List.mem_cons_of_mem c hx))) h0
      · rw [rstripL_cons_nonspace c cs (by simpa using hc)]
        simp [hc]

/-- Splitting yields no words exactly when the list is all whitespace. -/
theorem splitWords_eq_nil_iff (l : List Char) :
    splitWords l = [] ↔ ∀ c ∈ l, pyIsSpace c = true := by
  induction l with
  | nil => simp [splitWords, splitWordsF]
  | cons c cs ih =>
      by_cases hc : pyIsSpace c
      · rw [splitWords_cons_space c cs hc]
        simp [hc, ih]
      · rw [splitWords_cons_nonspace c cs (by simpa using hc)]
        simp [hc]

/-- Collapsing in after-space mode first drops the leading whitespace run. -/
theorem collapseAux_true (m : List Char) :
    collapseAux m true = collapseAux (m.dropWhile (fun c => pyIsSpace c)) false := by
  induction m with
  | nil => rfl
  | cons c cs ih =>
      by_cases hc : pyIsSpace c
      · rw [List.dropWhile_cons_of_pos (by simpa using hc),
            show collapseAux (c :: cs) true
              = (if pyIsSpace c then collapseAux cs true
                 else c :: collapseAux cs false) from rfl,
            if_pos hc]
        exact ih
      · rw [List.dropWhile_cons_of_neg (by simpa using hc),
            show collapseAux (c :: cs) true
              = (if pyIsSpace c then collapseAux cs true
                 else c :: collapseAux cs false) from rfl,
            if_neg hc,
            show collapseAux (c :: cs) false
              = (if pyIsSpace c then ' ' :: collapseAux cs true
                 else c :: collapseAux cs false) from rfl,
            if_neg hc]

/-- Left strip and right strip commute. -/
theorem dropWhile_rstripL (l : List Char) :
    (rstripL l).dropWhile (fun c => pyIsSpace c)
      = rstripL (l.dropWhile (fun c => pyIsSpace c)) := by
  induction l with
  | nil => rfl
  | cons c cs ih =>
      by_cases hc : pyIsSpace c
      · rw [rstripL_cons_space c cs hc, List.dropWhile_cons_of_pos (by simpa using hc)]
        by_cases h0 : rstripL cs = []
        · rw [if_pos h0]
          have : cs.dropWhile (fun c => pyIsSpace c) = [] := by
            rw [List.dropWhile_eq_nil_iff]
            intro x hx
            simpa using (rstripL_eq_nil_iff cs).mp h0 x hx
          rw [this]
          rfl
        · rw [if_neg h0, List.dropWhile_cons_of_pos (by simpa using hc), ih]
      · rw [rstripL_cons_nonspace c cs (by simpa using hc),
            List.dropWhile_cons_of_neg (by simpa using hc),
            List.dropWhile_cons_of_neg (by simpa using hc),
            rstripL_cons_nonspace c _ (by simpa using hc)]

/-- The head of a left-stripped list is never whitespace. -/
theorem headSpace_dropWhile (l : List Char) :
    headSpace (l.dropWhile (fun c => pyIsSpace c)) = false := by
  induction l with
  | nil => rfl
  | cons c cs ih =>
      by_cases hc : pyIsSpace c
      · rw [List.dropWhile_cons_of_pos (by simpa using hc)]
        exact ih
      · rw [List.dropWhile_cons_of_neg (by simpa using hc)]
        simpa using hc

/-- Word splitting ignores leading whitespace. -/
theorem splitWords_dropWhile (l : List Char) :
    splitWords (l.dropWhile (fun c => pyIsSpace c)) = splitWords l := by
  induction l with
  | nil => rfl
  | cons c cs ih =>
      by_cases hc : pyIsSpace c
      · rw [List.dropWhile_cons_of_pos (by simpa using hc),
            splitWords_cons_space c cs hc, ih]
      · rw [List.dropWhile_cons_of_neg (by simpa using hc)]

/-- Joining after prefixing a character onto the first word. -/
theorem joinWords_cons_cons (x : Char) (w : List Char) (S : List (List Char)) :
    joinWords ((x :: w) :: S) = x :: joinWords (w :: S) := by
  cases S <;> rfl

/-- Joining a word onto a nonempty tail inserts a separating space. -/
theorem joinWords_cons_ne (w : List Char) (S : List (List Char)) (h : S ≠ []) :
    joinWords (w :: S) = w ++ ' ' :: joinWords S := by
  cases S with
  | nil => exact absurd rfl h
  | cons s ss => rfl

/-- Strong-induction core: collapsing a right-stripped list prints the
whitespace-delimited words joined by single spaces, with one leading space
exactly when the list starts with whitespace and has any word. -/
theorem collapse_rstrip : ∀ (n : Nat) (l : List Char), l.length ≤ n →
    collapseAux (rstripL l) false
      = if headSpace l = true ∧ splitWords l ≠ [] then
          ' ' :: joinWords (splitWords l)
        else joinWords (splitWords l) := by
  intro n
  induction n with
  | zero =>
      intro l h
      have hl : l = [] := List.length_eq_zero.mp (Nat.le_zero.mp h)
      subst hl
      simp [rstripL, collapseAux, headSpace, splitWords, splitWordsF, joinWords]
  | succ k ih =>
      intro l hlen
      cases l with
      | nil =>
          simp [rstripL, collapseAux, headSpace, splitWords, splitWordsF,
            joinWords]
      | cons c cs =>
          have hhead : headSpace (c :: cs) = pyIsSpace c := rfl
          by_cases hc : pyIsSpace c
          · rw [splitWords_cons_space c cs hc, rstripL_cons_space c cs hc,
                hhead, hc]
            by_cases h0 : rstripL cs = []
            · have hnil : splitWords cs = [] :=
                (splitWords_eq_nil_iff cs).mpr ((rstripL_eq_nil_iff cs).mp h0)
              rw [if_pos h0, hnil]
              simp [collapseAux, joinWords]
            · have hsw : splitWords cs ≠ [] := by
                intro hq
                exact h0 ((rstripL_eq_nil_iff cs).mpr
                  ((splitWords_eq_nil_iff cs).mp hq))
              rw [if_neg h0, if_pos ⟨rfl, hsw⟩,
                  show collapseAux (c :: rstripL cs) false
                    = (if pyIsSpace c then ' ' :: collapseAux (rstripL cs) true
                       else c :: collapseAux (rstripL cs) false) from rfl,
                  if_pos hc, collapseAux_true, dropWhile_rstripL]
              have hlen2 : (cs.dropWhile (fun c => pyIsSpace c)).length ≤ k := by
                have hd := (List.dropWhile_sublist
                  (fun c => pyIsSpace c) (l := cs)).length_le
                simp only [List.length_cons] at hlen
                omega
              rw [ih _ hlen2, headSpace_dropWhile, if_neg (by simp),
                  splitWords_dropWhile]
          · have hc' : pyIsSpace c = false := by simpa using hc
            rw [splitWords_cons_nonspace c cs hc', rstripL_cons_nonspace c cs hc',
                show collapseAux (c :: rstripL cs) false
                  = (if pyIsSpace c then ' ' :: collapseAux (rstripL cs) true
                     else c :: collapseAux (rstripL cs) false) from rfl,
                if_neg hc, hhead, hc', if_neg (by simp)]
            have hlen1 : cs.length ≤ k := by
              simp only [List.length_cons] at hlen
              omega
            rw [ih cs hlen1]
            cases cs with
            | nil =>
                simp [headSpace, splitWords, splitWordsF, joinWords]
            | cons d ds =>
                by_cases hd : pyIsSpace d
                · have htw : (d :: ds).takeWhile (fun x => !pyIsSpace x) = [] :=
                    List.takeWhile_cons_of_neg (by simp [hd])
                  have hdw : (d :: ds).dropWhile (fun x => !pyIsSpace x) = d :: ds :=
                    List.dropWhile_cons_of_neg (by simp [hd])
                  rw [htw, hdw,
                      show headSpace (d :: ds) = pyIsSpace d from rfl, hd]
                  by_cases h0 : splitWords (d :: ds) = []
                  · rw [h0, if_neg (by simp)]
                    rfl
                  · rw [if_pos ⟨rfl, h0⟩, joinWords_cons_ne _ _ h0]
                    rfl
                · have hd' : pyIsSpace d = false := by simpa using hd
                  have htw : (d :: ds).takeWhile (fun x => !pyIsSpace x)
                      = d :: ds.takeWhile (fun x => !pyIsSpace x) :=
                    List.takeWhile_cons_of_pos (by simp [hd'])
                  have hdw : (d :: ds).dropWhile (fun x => !pyIsSpace x)
                      = ds.dropWhile (fun x => !pyIsSpace x) :=
                    List.dropWhile_cons_of_pos (by simp [hd'])
                  rw [htw, hdw, show headSpace (d :: ds) = pyIsSpace d from rfl,
                      hd', if_neg (by simp), splitWords_cons_nonspace d ds hd',
                      joinWords_cons_cons, joinWords_cons_cons, joinWords_cons_cons]

/-- The code's whitespace normalization — strip then collapse runs — prints
the whitespace-delimited words joined by single spaces. -/
theorem collapse_strip_eq_joinWords (l : List Char) :
    collapseWs (stripBoth l) = joinWords (splitWords l) := by
  unfold collapseWs stripBoth lstripL
  rw [collapse_rstrip (l.dropWhile (fun c => pyIsSpace c)).length _ (Nat.le_refl _),
      headSpace_dropWhile, if_neg (by simp), splitWords_dropWhile]

/-- Lower-casing commutes with word splitting. -/
theorem splitWords_map_lower : ∀ (n : Nat) (l : List Char), l.length ≤ n →
    splitWords (l.map pyLower) = (splitWords l).map (List.map pyLower) := by
  have hfun : ((fun x => !pyIsSpace x) ∘ pyLower) = (fun x => !pyIsSpace x) :=
    funext (fun x => by simp [Function.comp, pyLower_space])
  intro n
  induction n with
  | zero =>
      intro l h
      have hl : l = [] := List.length_eq_zero.mp (Nat.le_zero.mp h)
      subst hl
      rfl
  | succ k ih =>
      intro l hlen
      cases l with
      | nil => rfl
      | cons c cs =>
          rw [List.map_cons]
          by_cases hc : pyIsSpace c
          · rw [splitWords_cons_space (pyLower c) _ (by rw [pyLower_space]; exact hc),
                splitWords_cons_space c cs hc]
            exact ih cs (by simpa using hlen)
          · have hc' : pyIsSpace c = false := by simpa using hc
            rw [splitWords_cons_nonspace (pyLower c) _ (by rw [pyLower_space]; exact hc'),
                splitWords_cons_nonspace c cs hc',
                List.takeWhile_map, List.dropWhile_map, hfun,
                ih (cs.dropWhile (fun x => !pyIsSpace x))
                  (by
                    have := (List.dropWhile_sublist
                      (fun x => !pyIsSpace x) (l := cs)).length_le
                    simp only [List.length_cons] at hlen
                    omega),
                List.map_cons, List.map_cons]

/-- C6 (amended): the content hash of an absent or empty body is absent;
otherwise it is SHA-256 over the UTF-8 bytes of the body lower-cased,
stripped, whitespace-collapsed and THEN punctuation-stripped (the code
collapses whitespace before removing punctuation, not after as the claim's
normalization order would have it); consequently the hash is invariant
across bodies with the same sequence of whitespace-delimited words — but
not across every punctuation difference, because punctuation removed after
collapsing can leave distinct interior space runs (see the
counterexample). -/
theorem c6_content_hash :
    (generate_content_hash none = none ∧ generate_content_hash (some "") = none)
    ∧ (∀ b : String, b ≠ "" →
        generate_content_hash (some b)
          = some (sha256Hex (utf8Encode (removePunct (collapseWs (stripBoth
              (b.data.map pyLower)))))))
    ∧ (∀ b1 b2 : String, b1 ≠ "" → b2 ≠ "" →
        splitWords b1.data = splitWords b2.data →
        generate_content_hash (some b1) = generate_content_hash (some b2)) := by
  refine ⟨⟨rfl, rfl⟩, ?_, ?_⟩
  · intro b hb
    simp only [generate_content_hash]
    rw [if_neg hb]
    rfl
  · intro b1 b2 h1 h2 hsp
    simp only [generate_content_hash]
    rw [if_neg h1, if_neg h2]
    unfold normalizeForHash
    rw [collapse_strip_eq_joinWords, collapse_strip_eq_joinWords,
        splitWords_map_lower b1.data.length b1.data (Nat.le_refl _),
        splitWords_map_lower b2.data.length b2.data (Nat.le_refl _), hsp]

/-- Witness for C6 at concrete bodies differing only in whitespace. -/
theorem c6_content_hash_witness :
    splitWords "Hello,  world".data = splitWords "Hello, world ".data
    ∧ generate_content_hash (some "Hello,  world")
        = generate_content_hash (some "Hello, world ") :=
  ⟨by decide,
   c6_content_hash.2.2 "Hello,  world" "Hello, world " (by decide) (by decide)
     (by decide)⟩

/-- Counterexample to C6 as stated: the bodies `a b` and `a.b` differ only
in whitespace/punctuation characters — erasing every non-word character
leaves the identical text — yet their content hashes differ, because the
code removes punctuation only after collapsing whitespace, so `a b`
normalizes to `a b` while `a.b` normalizes to `ab`. -/
theorem c6_hash_counterexample :
    "a b".data.filter (fun c => pyIsWordChar c)
        = "a.b".data.filter (fun c => pyIsWordChar c)
    ∧ generate_content_hash (some "a b") ≠ generate_content_hash (some "a.b") :=
  ⟨by decide, by decide⟩

/-! ## C7 — URL canonicalization -/

/-- C7 (amended): `_normalize_url` filters the query against the fixed
seven-name list `utm_source, utm_medium, utm_campaign, utm_term,
utm_content, fbclid, gclid` — not against every `utm_*` name.  A parameter
survives exactly when its name is outside that list, the survivors keep
their original order, the reconstruction preserves scheme, host and path,
and two URLs sharing scheme, host, path and surviving parameters normalize
identically; the spec's own scenario URL normalizes as claimed. -/
theorem c7_normalize_url :
    (∀ (q : String) (pr : List Char),
        pr ∈ keptParams q ↔
          (q ≠ "" ∧ pr ∈ splitOnChar '&' q.data ∧
           (tracking_params.map String.data).contains (paramName pr) = false))
    ∧ (∀ q : String, (keptParams q).Sublist (splitOnChar '&' q.data))
    ∧ (∀ p : ParsedUrl,
        normalize_url p
          = String.mk (p.scheme.data ++ "://".data ++ p.netloc.data ++
              p.path.data ++
              (if joinAmp (keptParams p.query) = [] then []
               else '?' :: joinAmp (keptParams p.query))))
    ∧ (∀ p1 p2 : ParsedUrl, p1.scheme = p2.scheme → p1.netloc = p2.netloc →
        p1.path = p2.path → keptParams p1.query = keptParams p2.query →
        normalize_url p1 = normalize_url p2)
    ∧ normalize_url (ParsedUrl.mk "http" "news.example" "/a" "utm_source=x")
        = "http://news.example/a" := by
  refine ⟨?_, ?_, fun p => rfl, ?_, by decide⟩
  · intro q pr
    unfold keptParams
    by_cases hq : q = ""
    · simp [hq]
    · simp [hq, List.mem_filter]
  · intro q
    unfold keptParams
    by_cases hq : q = ""
    · simp [hq]
    · rw [if_neg hq]
      exact List.filter_sublist _
  · intro p1 p2 h1 h2 h3 h4
    unfold normalize_url
    rw [h1, h2, h3, h4]

/-- Witness for C7 at concrete inputs: dropping `utm_source` from the query
leaves the other parameters in order and normalizes identically to the URL
that never carried it. -/
theorem c7_normalize_url_witness :
    keptParams "a=1&utm_source=z&b=2" = keptParams "a=1&b=2"
    ∧ normalize_url (ParsedUrl.mk "http" "h" "/p" "a=1&utm_source=z&b=2")
        = normalize_url (ParsedUrl.mk "http" "h" "/p" "a=1&b=2") :=
  ⟨by decide,
   c7_normalize_url.2.2.2.1 (ParsedUrl.mk "http" "h" "/p" "a=1&utm_source=z&b=2")
     (ParsedUrl.mk "http" "h" "/p" "a=1&b=2") rfl rfl rfl (by decide)⟩

/-- Counterexample to C7 as stated: `utm_id` matches `utm_*` — erasing all
claim-tracking parameters from both queries leaves the same (empty)
parameter list, so the two URLs differ only in tracking parameters — yet
the code keeps `utm_id`, so the two URLs normalize differently. -/
theorem c7_utm_wildcard_counterexample :
    specIsTracking "utm_id".data = true
    ∧ specKeptParams "utm_id=1" = specKeptParams ""
    ∧ normalize_url (ParsedUrl.mk "http" "news.example" "/a" "utm_id=1")
        ≠ normalize_url (ParsedUrl.mk "http" "news.example" "/a" "")
    ∧ normalize_url (ParsedUrl.mk "http" "news.example" "/a" "utm_id=1")
        = "http://news.example/a?utm_id=1" :=
  ⟨by decide, by decide, by decide, by decide⟩

/-! ## C8 — quality score -/

/-- C8 (amended): for every record whose body is present (nonempty) the
quality score is exactly the claim's additive capped formula, and the
spec scenario (title length 12, body length 600, word count 120, author
present) scores exactly 70; the score never exceeds the 100 cap.  When the
body is absent the word-count bonus is skipped too, so the signals are not
fully independent (see the counterexample). -/
theorem c8_quality_score :
    (∀ d : Item, truthyS d.content = true →
        calculate_quality_score d = specQualityScore d)
    ∧ calculate_quality_score scenarioItem = 70
    ∧ (∀ d : Item, calculate_quality_score d ≤ 100) := by
  refine ⟨?_, by decide, fun d => Nat.min_le_right _ _⟩
  intro d h
  unfold calculate_quality_score specQualityScore
  rw [h, if_pos rfl]
  cases ht : d.title with
  | none => simp [truthyOS]
  | some t =>
      by_cases h0 : t = ""
      · subst h0
        simp [truthyOS]
      · simp [truthyOS, h0]
        congr 1
        ring

/-- Witness for C8 at a concrete input: a 600-character body is present, so
the code score agrees with the claim's formula there and equals 70. -/
theorem c8_quality_score_witness :
    truthyS scenarioItem.content = true
    ∧ calculate_quality_score scenarioItem = specQualityScore scenarioItem
    ∧ calculate_quality_score scenarioItem = 70 :=
  ⟨by decide, c8_quality_score.1 scenarioItem (by decide), by decide⟩

/-- Counterexample to C8 as stated: a record with no body but word count 120
scores 0 in the code — the word-count signal is conditioned on body
presence — while the claim's sum of independent signals gives it 10. -/
theorem c8_word_count_counterexample :
    calculate_quality_score noBodyItem = 0
    ∧ specQualityScore noBodyItem = 10
    ∧ calculate_quality_score noBodyItem ≠ specQualityScore noBodyItem :=
  ⟨by decide, by decide, by decide⟩

/-! ## C9 — the transition operation -/

/-- C9 (amended): `update_job_status` sets `started_at` when the job enters
running, sets `completed_at` when it enters completed or failed, truncates
the stored error message to 1000 characters — but when a metadata patch is
given it REPLACES the job's metadata wholesale, losing stored keys absent
from the patch.  Only the pipeline success-update merges: `JSON_SET` writes
`article_id` into the existing metadata and every other key keeps its
value. -/
theorem c9_transition (db : DB) (jid : Nat) (st : Status) (err : Option String)
    (meta : Option Meta) (now : Nat) (r : JobRow)
    (hfind : findJob db jid = some r) :
    (st = Status.running →
        (findJob (update_job_status db jid st err meta now) jid).map
          JobRow.started_at = some (some now))
    ∧ (st = Status.completed ∨ st = Status.failed →
        (findJob (update_job_status db jid st err meta now) jid).map
          JobRow.completed_at = some (some now))
    ∧ (∀ msg : String, err = some msg → msg ≠ "" →
        (findJob (update_job_status db jid st err meta now) jid).map
          JobRow.error_message = some (some (String.mk (msg.data.take 1000)))
        ∧ (String.mk (msg.data.take 1000)).length ≤ 1000)
    ∧ (∀ m : Meta, meta = some m → m ≠ [] →
        (findJob (update_job_status db jid st err meta now) jid).map
          JobRow.metadata = some (some m))
    ∧ (∀ aid : Nat,
        (findJob (update_crawl_job_success db jid aid now) jid).map
          JobRow.metadata
            = some (some (jsonSet (r.metadata.getD []) "article_id"
                (JVal.nat aid)))
        ∧ (findJob (update_crawl_job_success db jid aid now) jid).map
          JobRow.status = some Status.completed)
    ∧ (∀ (m : Meta) (k k' : String) (v : JVal), k' ≠ k →
        (jsonSet m k v).find? (fun kv => kv.1 == k')
          = m.find? (fun kv => kv.1 == k')) := by
  refine ⟨?_, ?_, ?_, ?_, ?_, ?_⟩
  · intro hst
    rw [findJob_update_job_status, hfind]
    simp [applyStatusUpdate, hst]
  · intro hst
    rw [findJob_update_job_status, hfind]
    rcases hst with h | h <;> simp [applyStatusUpdate, h]
  · intro msg hmsg hne
    rw [findJob_update_job_status, hfind]
    constructor
    · simp [applyStatusUpdate, hmsg, truthyOS, hne]
    · rw [show (String.mk (msg.data.take 1000)).length
          = (msg.data.take 1000).length from rfl]
      simp [List.length_take]
  · intro m hm hne
    rw [findJob_update_job_status, hfind]
    simp [applyStatusUpdate, hm, truthyMeta, hne]
  · intro aid
    rw [findJob_update_success, hfind]
    exact ⟨rfl, rfl⟩
  · intro m k k' v hk
    induction m with
    | nil => simp [jsonSet, hk, Ne.symm hk]
    | cons kv rest ih =>
        by_cases h1 : kv.1 = k
        · have hb : (kv.1 == k) = true := by simp [h1]
          rw [show jsonSet (kv :: rest) k v
              = (if kv.1 == k then (k, v) :: rest else kv :: jsonSet rest k v)
              from rfl, if_pos hb]
          rw [List.find?_cons_of_neg _ (by simp [Ne.symm hk]),
              List.find?_cons_of_neg _ (by simp [h1, Ne.symm hk])]
        · have hb : (kv.1 == k) = false := by simp [h1]
          rw [show jsonSet (kv :: rest) k v
              = (if kv.1 == k then (k, v) :: rest else kv :: jsonSet rest k v)
              from rfl, if_neg (by simp [hb])]
          by_cases h2 : kv.1 = k'
          · rw [List.find?_cons_of_pos _ (by simp [h2]),
                List.find?_cons_of_pos _ (by simp [h2])]
          · rw [List.find?_cons_of_neg _ (by simp [h2]),
                List.find?_cons_of_neg _ (by simp [h2]), ih]

/-- Witness for C9 at a concrete input: completing a job stamps
`completed_at`, stores a truncated error, and the pipeline success-update
merges `article_id` while preserving the stored key `a`. -/
theorem c9_transition_witness :
    (findJob (update_job_status dbWithMeta 1 Status.completed (some "oops")
        none 4) 1).map JobRow.completed_at = some (some 4)
    ∧ (findJob (update_crawl_job_success dbWithMeta 1 77 4) 1).map
        JobRow.metadata
          = some (some [("a", JVal.str "1"), ("article_id", JVal.nat 77)]) := by
  constructor
  · exact (c9_transition dbWithMeta 1 Status.completed (some "oops") none 4
      { mkJob 1 "http://e/a" 0 3 with metadata := some [("a", JVal.str "1")] }
      (by decide)).2.1 (Or.inl rfl)
  · have h := ((c9_transition dbWithMeta 1 Status.completed none none 4
      { mkJob 1 "http://e/a" 0 3 with metadata := some [("a", JVal.str "1")] }
      (by decide)).2.2.2.2.1 77).1
    rw [h]
    decide

/-- Counterexample to C9 as stated: a job whose stored metadata holds key
`a` is updated with the patch containing only key `b`; afterwards key `a`
is gone — the patch replaced the metadata wholesale instead of merging. -/
theorem c9_wholesale_replace_counterexample :
    (findJob dbWithMeta 1).map (fun j => lookupMeta j.metadata "a")
        = some (some (JVal.str "1"))
    ∧ (findJob (update_job_status dbWithMeta 1 Status.completed none
        (some [("b", JVal.str "2")]) 4) 1).map
        (fun j => lookupMeta j.metadata "a") = some none :=
  ⟨by decide, by decide⟩

/-! ## C10 — sitemap-shaped jobs -/

/-- C10: `process_job` picks the sitemap path by the case-insensitive
substring test `'sitemap' in url.lower()`.  A job passing that test never
writes an `articles` row — its database effect goes through the discovery
pipeline only — and on success it is completed with metadata exactly the
one-key dict `crawl_type = sitemap`, with no count of discovered URLs.  A
job failing the test takes the single-URL path, whose completed metadata
starts with `crawl_type = single_url`. -/
theorem c10_sitemap_branch (db : DB) (job r : JobRow) (ex : Option Item)
    (sv : Bool) (smUrls : List String) (fb : Option Item) (now : Nat)
    (hfind : findJob db job.id = some r) :
    (sitemapCheck job.url = true →
        (process_job db job (ProcOutcome.ok ex sv) smUrls fb now).articles
          = db.articles
        ∧ (findJob (process_job db job (ProcOutcome.ok ex sv) smUrls fb now)
            job.id).map JobRow.status = some Status.completed
        ∧ (findJob (process_job db job (ProcOutcome.ok ex sv) smUrls fb now)
            job.id).map JobRow.metadata
          = some (some [("crawl_type", JVal.str "sitemap")]))
    ∧ (sitemapCheck job.url = false → ex = none →
        (findJob (process_job db job (ProcOutcome.ok ex sv) smUrls fb now)
            job.id).map JobRow.metadata
          = some (some [("crawl_type", JVal.str "single_url"),
                        ("extraction_successful", JVal.bool false),
                        ("title", JVal.null),
                        ("content_length", JVal.nat 0)])) := by
  constructor
  · intro hsm
    have hbody : process_job db job (ProcOutcome.ok ex sv) smUrls fb now
        = update_job_status
            (update_job_status db job.id Status.running none none now) job.id
            Status.completed none (some [("crawl_type", JVal.str "sitemap")])
            now := by
      simp only [process_job, hsm, if_pos, crawl_sitemap_effect_eq]
    rw [hbody]
    refine ⟨rfl, ?_, ?_⟩ <;>
      rw [findJob_update_job_status, findJob_update_job_status, hfind] <;> rfl
  · intro hsm hex
    subst hex
    have h1 : findJob (update_job_status db job.id Status.running none none now)
        job.id = some (applyStatusUpdate Status.running none none now r) := by
      rw [findJob_update_job_status, hfind]
      rfl
    obtain ⟨r', hr', -⟩ := findJob_fallback
      (update_job_status db job.id Status.running none none now) job fb now
      job.id (applyStatusUpdate Status.running none none now r) h1
    simp only [process_job, hsm, Bool.false_eq_true, if_neg, if_false]
    rw [findJob_update_job_status, hr']
    rfl

/-- Witness for C10 at a concrete input: a job whose URL contains `SiteMap`
completes with metadata exactly `crawl_type = sitemap` and writes no
article row even though two URLs were discovered. -/
theorem c10_sitemap_branch_witness :
    sitemapCheck "http://e/SiteMap.xml" = true
    ∧ (process_job (mkDB (mkJob 1 "http://e/SiteMap.xml" 0 3))
        (mkJob 1 "http://e/SiteMap.xml" 0 3)
        (ProcOutcome.ok none false) ["http://e/a1", "http://e/a2"] none
        5).articles
        = (mkDB (mkJob 1 "http://e/SiteMap.xml" 0 3)).articles
    ∧ (findJob (process_job (mkDB (mkJob 1 "http://e/SiteMap.xml" 0 3))
        (mkJob 1 "http://e/SiteMap.xml" 0 3)
        (ProcOutcome.ok none false) ["http://e/a1", "http://e/a2"] none 5) 1).map
        JobRow.metadata = some (some [("crawl_type", JVal.str "sitemap")]) := by
  refine ⟨by decide, ?_, ?_⟩
  · exact ((c10_sitemap_branch (mkDB (mkJob 1 "http://e/SiteMap.xml" 0 3))
      (mkJob 1 "http://e/SiteMap.xml" 0 3) (mkJob 1 "http://e/SiteMap.xml" 0 3)
      none false ["http://e/a1", "http://e/a2"] none 5 (by decide)).1
      (by decide)).1
  · exact ((c10_sitemap_branch (mkDB (mkJob 1 "http://e/SiteMap.xml" 0 3))
      (mkJob 1 "http://e/SiteMap.xml" 0 3) (mkJob 1 "http://e/SiteMap.xml" 0 3)
      none false ["http://e/a1", "http://e/a2"] none 5 (by decide)).1
      (by decide)).2.2
